import Mathlib

/-!
Verification of the pairs-trading backtester (`backtester.py`).

Shallow embedding conventions:
* Python floats are modelled as `ℚ`; the float value NaN is modelled as
  `none : Option ℚ` (the `Position` sentinel fields are NaN / the empty
  string in the source, and NaN propagates through arithmetic and makes
  every `<` comparison false, which the embedding reproduces).
* Functions that can raise (`AssertionError`, `ValueError`,
  `ZeroDivisionError`, `KeyError`, ...) return `Except String α`; a raised
  exception is `.error msg` and propagates through the callers exactly as
  in Python.  Functions that cannot raise are total.
* Mutation of a `Position` is explicit state passing: a method that
  mutates returns the new `Position`.
* `pandas` DataFrames become `List`s of rows; appending a row to the
  trade log is `++ [row]`.
* Python `round` is round-half-to-even on the exact rational value.
-/

deriving instance DecidableEq for Except

namespace Backtester

/-- Python `round` (banker's rounding, half to even), on `ℚ`. -/
def pyRound (q : ℚ) : ℤ :=
  let f : ℤ := q.num.fdiv (q.den : ℤ)
  let r : ℚ := q - (f : ℚ)
  if r < 1 / 2 then f
  else if 1 / 2 < r then f + 1
  else if f % 2 = 0 then f else f + 1

/-- The `Position` class.  `type` is `1` for long, `-1` for short.
A closed position has `name = ""` and NaN (`none`) numeric fields. -/
structure Position where
  type : ℤ
  name : String
  date : String
  entry_cash : Option ℚ
  price : Option ℚ
  amount : Option ℤ
deriving DecidableEq

/-- `Position.__init__` for type `'long'` : `self.type = 1`, all fields empty. -/
def longInit : Position := ⟨1, "", "", none, none, none⟩

/-- `Position.__init__` for type `'short'` : `self.type = -1`, all fields empty. -/
def shortInit : Position := ⟨-1, "", "", none, none, none⟩

/-- The cleared (closed) position of a given type: all fields reset to the
empty sentinel, as `Position.close` leaves them. -/
def Position.cleared (t : ℤ) : Position := ⟨t, "", "", none, none, none⟩

/-- `Position.is_open` : true iff `self.name` is non-empty (Python truthiness
of the string field). -/
def Position.is_open (p : Position) : Bool := p.name ≠ ""

/-- `Position.get_pnl` : `pnl = type * amount * price - type * entry_cash`.
No open-check is performed in the source; on a closed position the NaN
fields make the result NaN (`none`). -/
def Position.get_pnl (p : Position) (price : ℚ) : Option ℚ :=
  match p.amount, p.entry_cash with
  | some a, some c => some ((p.type : ℚ) * (a : ℚ) * price - (p.type : ℚ) * c)
  | _, _ => none

/-- `Position.open` (named `openPos` since `open` is a Lean keyword): raises
if already open, rejects names other than `'kxi'`/`'xlp'`, computes
`amount = round(entry_cash/price)` (a `ZeroDivisionError` if `price = 0`),
and populates the fields. -/
def Position.openPos (p : Position) (name date : String)
    (entry_cash price : ℚ) : Except String Position :=
  if p.is_open then
    .error "AssertionError: Position is already open. Close it before opening a new one."
  else if name ≠ "kxi" ∧ name ≠ "xlp" then
    .error "ValueError: Invalid ETF name"
  else if price = 0 then
    .error "ZeroDivisionError: float division by zero"
  else
    .ok ⟨p.type, name, date, some entry_cash, some price,
         some (pyRound (entry_cash / price))⟩

/-- `Position.close` : raises if not open, else returns
`(self.get_pnl price, cleared position)`. -/
def Position.close (p : Position) (price : ℚ) :
    Except String (Option ℚ × Position) :=
  if p.is_open = false then
    .error "AssertionError: Position is already closed. Open before trying to close."
  else
    .ok (p.get_pnl price, Position.cleared p.type)

/-- `find_short_long` : resolves which current price belongs to the short leg
and which to the long leg, keyed on the short leg's instrument name.
Returns `(short_price, long_price)`. -/
def find_short_long (short_pos long_pos : Position)
    (kxi_price xlp_price : ℚ) : ℚ × ℚ :=
  if short_pos.name = "kxi" then (kxi_price, xlp_price)
  else (xlp_price, kxi_price)

/-- `get_pnls` : asserts both legs open, resolves prices, computes
`pnl = (pnl_short + pnl_long) * (1 - zeta)` and `gross_cash = 2 *
short_pos.entry_cash`, and runs the stop-loss check
`if (pnl < 0) and s: if abs(pnl)/gross_cash > s: return [False, 0]`.
Note the Python truthiness of `and s` (a zero `s` disables the check), the
NaN semantics (a NaN `pnl` or NaN ratio fails every comparison), and that
NumPy division by a zero `gross_cash` yields `inf`, which exceeds any `s`. -/
def get_pnls (short_pos long_pos : Position) (kxi_price xlp_price : ℚ)
    (zeta : ℚ) (s : Option ℚ) : Except String (Bool × Option ℚ) :=
  if short_pos.is_open = false ∨ long_pos.is_open = false then
    .error "AssertionError: Not all positions are open. Cannot get pnl."
  else
    let prices := find_short_long short_pos long_pos kxi_price xlp_price
    let pnl_short := short_pos.get_pnl prices.1
    let pnl_long := long_pos.get_pnl prices.2
    let pnl : Option ℚ :=
      match pnl_short, pnl_long with
      | some a, some b => some ((a + b) * (1 - zeta))
      | _, _ => none
    let gross_cash : Option ℚ := short_pos.entry_cash.map (fun c => c * 2)
    match pnl, s with
    | some p, some sv =>
      if p < 0 ∧ sv ≠ 0 then
        match gross_cash with
        | some gc =>
          if gc = 0 ∨ |p| / gc > sv then .ok (false, some 0)
          else .ok (true, some p)
        | none => .ok (true, some p)
      else .ok (true, some p)
    | p, _ => .ok (true, p)

/-- A row of the trade-log DataFrame, columns
`['date', 'position_status', 'position_type', 'gross_cash', 'pnl',
'kxi_price', 'kxi_amount', 'xlp_price', 'xlp_amount', 'Reason']`.
`none` models NaN / `None` entries. -/
structure LogRow where
  date : String
  position_status : String
  position_type : String
  gross_cash : Option ℚ
  pnl : Option ℚ
  kxi_price : ℚ
  kxi_amount : Option ℤ
  xlp_price : ℚ
  xlp_amount : Option ℤ
  reason : Option String
deriving DecidableEq

/-- `close_positions` : determines the prior spread type and amounts from the
short leg's instrument, records `gross_cash = 2 * short entry cash`, computes
the final pnl via `get_pnls` with `s = None` (stop-loss disabled), appends
the CLOSE row, then closes both legs at the resolved prices. -/
def close_positions (trade_log : List LogRow) (date : String)
    (short_pos long_pos : Position) (kxi_price xlp_price zeta : ℚ)
    (reason : String) : Except String (List LogRow × Position × Position) :=
  let position_type := if short_pos.name = "kxi" then "short" else "long"
  let kxi_amt := if short_pos.name = "kxi" then short_pos.amount else long_pos.amount
  let xlp_amt := if short_pos.name = "kxi" then long_pos.amount else short_pos.amount
  let short_price := if short_pos.name = "kxi" then kxi_price else xlp_price
  let long_price := if short_pos.name = "kxi" then xlp_price else kxi_price
  let gross_cash : Option ℚ := short_pos.entry_cash.map (fun c => c * 2)
  match get_pnls short_pos long_pos kxi_price xlp_price zeta none with
  | .error e => .error e
  | .ok pnl_ret =>
    let row : LogRow :=
      ⟨date, "CLOSE", position_type, gross_cash, pnl_ret.2,
       kxi_price, kxi_amt, xlp_price, xlp_amt, some reason⟩
    match short_pos.close short_price with
    | .error e => .error e
    | .ok sres =>
      match long_pos.close long_price with
      | .error e => .error e
      | .ok lres => .ok (trade_log ++ [row], sres.2, lres.2)

/-- The Python default argument `reason='Standard'` of `close_positions`,
as used at the call sites that omit `reason`. -/
def close_positions_std (trade_log : List LogRow) (date : String)
    (short_pos long_pos : Position) (kxi_price xlp_price zeta : ℚ) :
    Except String (List LogRow × Position × Position) :=
  close_positions trade_log date short_pos long_pos kxi_price xlp_price zeta "Standard"

/-- `open_positions` : rejects spread directions outside
`{'short','long'}`; for `'long'` opens the long leg on kxi and the short leg
on xlp, for `'short'` the other way around; appends the OPEN row with
`gross = entry_cash*2` and NaN pnl. -/
def open_positions (trade_log : List LogRow) (short_pos long_pos : Position)
    (kxi_price xlp_price : ℚ) (date : String) (entry_cash : ℚ)
    (position_type : String) : Except String (List LogRow × Position × Position) :=
  if position_type ≠ "short" ∧ position_type ≠ "long" then
    .error "ValueError: Invalid spread position"
  else if position_type = "long" then
    match long_pos.openPos "kxi" date entry_cash kxi_price with
    | .error e => .error e
    | .ok lp =>
      match short_pos.openPos "xlp" date entry_cash xlp_price with
      | .error e => .error e
      | .ok sp =>
        .ok (trade_log ++
          [⟨date, "OPEN", position_type, some (entry_cash * 2), none,
            kxi_price, lp.amount, xlp_price, sp.amount, none⟩], sp, lp)
  else
    match long_pos.openPos "xlp" date entry_cash xlp_price with
    | .error e => .error e
    | .ok lp =>
      match short_pos.openPos "kxi" date entry_cash kxi_price with
      | .error e => .error e
      | .ok sp =>
        .ok (trade_log ++
          [⟨date, "OPEN", position_type, some (entry_cash * 2), none,
            kxi_price, sp.amount, xlp_price, lp.amount, none⟩], sp, lp)

/-- A row of the input price DataFrame (`date`, adjusted closes, and the
per-day notional signal `N_t`). -/
structure TRow where
  date : String
  KXI_adj_close : ℚ
  XLP_adj_close : ℚ
  N_t : ℚ
deriving DecidableEq

/-- Lexicographic comparison of character lists by code point — the
comparison Python applies to its strings. -/
def charListLt : List Char → List Char → Bool
  | [], [] => false
  | [], _ :: _ => true
  | _ :: _, [] => false
  | a :: as, b :: bs =>
    if a.toNat < b.toNat then true
    else if b.toNat < a.toNat then false
    else charListLt as bs

/-- Python string `<` : lexicographic by code point. -/
def strLt (a b : String) : Bool := charListLt a.data b.data

/-- Stable insertion of a row into a date-sorted list (the element being
inserted goes after rows with an equal date, preserving original order). -/
def insertRow (r : TRow) : List TRow → List TRow
  | [] => [r]
  | a :: rest => if strLt r.date a.date then r :: a :: rest else a :: insertRow r rest

/-- `df.sort_values('date').reset_index(drop=True)` : a stable sort of the
rows by date (date keys are unique in the intended input, one row per
trading day, so stability is immaterial there). -/
def sortByDate (l : List TRow) : List TRow :=
  l.foldl (fun acc r => insertRow r acc) []

/-- `get_mday_returns` : sorts the series by date, locates today's row by
date, moves `m` rows back (a `KeyError` from `df.loc` if the offset is
negative), and returns the simple returns
`(kxi/old_kxi - 1, xlp/old_xlp - 1)`. -/
def get_mday_returns (df : List TRow) (row : TRow) (m : ℕ) :
    Except String (ℚ × ℚ) :=
  match (sortByDate df).findIdx? (fun r => decide (r.date = row.date)) with
  | none => .error "IndexError: index 0 is out of bounds"
  | some idx =>
    if m ≤ idx then
      match (sortByDate df)[idx - m]? with
      | some subdf =>
        if subdf.KXI_adj_close = 0 ∨ subdf.XLP_adj_close = 0 then
          .error "ZeroDivisionError: float division by zero"
        else
          .ok (row.KXI_adj_close / subdf.KXI_adj_close - 1,
               row.XLP_adj_close / subdf.XLP_adj_close - 1)
      | none => .error "KeyError"
    else .error "KeyError"

/-- Gregorian leap year, as used by `datetime`. -/
def isLeap (y : ℕ) : Bool := y % 4 = 0 ∧ (y % 100 ≠ 0 ∨ y % 400 = 0)

/-- Days in a month of the proleptic Gregorian calendar. -/
def daysInMonth (y m : ℕ) : ℕ :=
  if m = 2 then (if isLeap y then 29 else 28)
  else if m = 4 ∨ m = 6 ∨ m = 9 ∨ m = 11 then 30
  else 31

/-- Splits a character list on a separator character (like `str.split`). -/
def splitOnChar (c : Char) : List Char → List (List Char)
  | [] => [[]]
  | a :: rest =>
    match splitOnChar c rest with
    | h :: t => if a = c then [] :: h :: t else (a :: h) :: t
    | [] => if a = c then [[], []] else [[a]]

/-- Parses a non-empty all-digit character list as a natural number. -/
def natOfDigits? (l : List Char) : Option ℕ :=
  if l = [] then none
  else if l.all (fun c => c.isDigit) then
    some (l.foldl (fun a c => a * 10 + (c.toNat - 48)) 0)
  else none

/-- `datetime.strptime(date, '%Y-%m-%d')` : parses `Y-m-d` with numeric
fields and validates the calendar date (raises `ValueError` otherwise). -/
def parseDate (str : String) : Except String (ℕ × ℕ × ℕ) :=
  match (splitOnChar '-' str.data).map natOfDigits? with
  | [some y, some m, some d] =>
    if 1 ≤ y ∧ 1 ≤ m ∧ m ≤ 12 ∧ 1 ≤ d ∧ d ≤ daysInMonth y m then .ok (y, m, d)
    else .error "ValueError: time data does not match format"
  | _ => .error "ValueError: time data does not match format"

/-- Left-pads a numeral with zeros to the given width. -/
def padZeros (n w : ℕ) : String :=
  let str := toString n
  ⟨List.replicate (w - str.length) '0'⟩ ++ str

/-- `strftime('%Y-%m-%d')` for a `(y, m, d)` triple. -/
def formatDate (y m d : ℕ) : String :=
  padZeros y 4 ++ "-" ++ padZeros m 2 ++ "-" ++ padZeros d 2

/-- `(datetime.strptime(date,'%Y-%m-%d') + relativedelta(months=1))
.strftime('%Y-%m-%d')` : add one calendar month, clamping the day to the
length of the target month (the `relativedelta` rule). -/
def addMonthStr (str : String) : Except String String :=
  match parseDate str with
  | .error e => .error e
  | .ok (y, m, d) =>
    let ym := if m = 12 then (y + 1, 1) else (y, m + 1)
    .ok (formatDate ym.1 ym.2 (min d (daysInMonth ym.1 ym.2)))

/-- The mutable state of `simulate`'s daily loop: the trade log, the
stop-loss cool-down date (`''` when unset), both positions, and the loop
variables `date` and `(kxi, xlp)` that survive the loop in Python (`date`
is assigned every iteration; the prices only on days that pass the warm-up
and cool-down filters). -/
structure SimState where
  trade_log : List LogRow
  stop_loss_date : String
  long_pos : Position
  short_pos : Position
  lastDate : Option String
  lastPrices : Option (ℚ × ℚ)
deriving DecidableEq

/-- Step 4 of the daily loop: signal computation and the entry/exit/flip
decisions (`z = kxi_ret - xlp_ret`, thresholds `g` and `j`). -/
def signalEval (df : List TRow) (g j zeta : ℚ) (M : ℕ)
    (st : SimState) (row : TRow) (trade_cash : ℚ) :
    Except String SimState :=
  match get_mday_returns df row M with
  | .error e => .error e
  | .ok rets =>
    if |rets.1 - rets.2| > g then
      if rets.1 - rets.2 > g then
        if st.long_pos.is_open = false ∧ st.short_pos.is_open = false then
          match open_positions st.trade_log st.short_pos st.long_pos
              row.KXI_adj_close row.XLP_adj_close row.date trade_cash "short" with
          | .error e => .error e
          | .ok r => .ok { st with trade_log := r.1, short_pos := r.2.1, long_pos := r.2.2 }
        else if st.short_pos.name = "kxi" then .ok st
        else
          match close_positions_std st.trade_log row.date st.short_pos st.long_pos
              row.KXI_adj_close row.XLP_adj_close zeta with
          | .error e => .error e
          | .ok r =>
            match open_positions r.1 r.2.1 r.2.2 row.KXI_adj_close row.XLP_adj_close
                row.date trade_cash "short" with
            | .error e => .error e
            | .ok r2 => .ok { st with trade_log := r2.1, short_pos := r2.2.1, long_pos := r2.2.2 }
      else if rets.1 - rets.2 < -g then
        if st.long_pos.is_open = false ∧ st.short_pos.is_open = false then
          match open_positions st.trade_log st.short_pos st.long_pos
              row.KXI_adj_close row.XLP_adj_close row.date trade_cash "long" with
          | .error e => .error e
          | .ok r => .ok { st with trade_log := r.1, short_pos := r.2.1, long_pos := r.2.2 }
        else if st.long_pos.name = "kxi" then .ok st
        else
          match close_positions_std st.trade_log row.date st.short_pos st.long_pos
              row.KXI_adj_close row.XLP_adj_close zeta with
          | .error e => .error e
          | .ok r =>
            match open_positions r.1 r.2.1 r.2.2 row.KXI_adj_close row.XLP_adj_close
                row.date trade_cash "long" with
            | .error e => .error e
            | .ok r2 => .ok { st with trade_log := r2.1, short_pos := r2.2.1, long_pos := r2.2.2 }
      else .ok st
    else if |rets.1 - rets.2| < j ∧ st.long_pos.is_open = true ∧ st.short_pos.is_open = true then
      match close_positions_std st.trade_log row.date st.short_pos st.long_pos
          row.KXI_adj_close row.XLP_adj_close zeta with
      | .error e => .error e
      | .ok r => .ok { st with trade_log := r.1, short_pos := r.2.1, long_pos := r.2.2 }
    else .ok st

/-- Steps 3-4 of the daily loop (after the warm-up and cool-down filters):
reads the day's prices and notional, runs the stop-loss evaluation when
both legs are open (on a trigger: computes the cool-down date, force-closes
with reason `'STOP LOSS'`, and skips the rest of the day), otherwise falls
through to the signal evaluation. -/
def simEval (df : List TRow) (g j zeta : ℚ) (s : Option ℚ) (M : ℕ)
    (st : SimState) (row : TRow) : Except String SimState :=
  if st.long_pos.is_open = true ∧ st.short_pos.is_open = true then
    match get_pnls st.short_pos st.long_pos row.KXI_adj_close row.XLP_adj_close zeta s with
    | .error e => .error e
    | .ok pnl_res =>
      if pnl_res.1 = false then
        match addMonthStr row.date with
        | .error e => .error e
        | .ok sld =>
          match close_positions st.trade_log row.date st.short_pos st.long_pos
              row.KXI_adj_close row.XLP_adj_close zeta "STOP LOSS" with
          | .error e => .error e
          | .ok r =>
            .ok { st with trade_log := r.1, short_pos := r.2.1, long_pos := r.2.2,
                          stop_loss_date := sld,
                          lastPrices := some (row.KXI_adj_close, row.XLP_adj_close) }
      else signalEval df g j zeta M
        { st with lastPrices := some (row.KXI_adj_close, row.XLP_adj_close) } row
        (row.N_t / 100)
  else signalEval df g j zeta M
    { st with lastPrices := some (row.KXI_adj_close, row.XLP_adj_close) } row
    (row.N_t / 100)

/-- One iteration of `simulate`'s daily loop: records the day's date, applies
the warm-up filter (`date < '2022-01-01'`) and the stop-loss cool-down
filter (skip until `date == stop_loss_date`, then clear it and fall
through), and otherwise runs the day's evaluation. -/
def simDay (df : List TRow) (g j zeta : ℚ) (s : Option ℚ) (M : ℕ)
    (st : SimState) (row : TRow) : Except String SimState :=
  if strLt row.date "2022-01-01" then .ok { st with lastDate := some row.date }
  else if st.stop_loss_date ≠ "" then
    if row.date = st.stop_loss_date then
      simEval df g j zeta s M { st with lastDate := some row.date, stop_loss_date := "" } row
    else .ok { st with lastDate := some row.date }
  else simEval df g j zeta s M { st with lastDate := some row.date } row

/-- The initial loop state: empty trade log, no cool-down, a fresh
`Position('long')` and `Position('short')`. -/
def initState : SimState := ⟨[], "", longInit, shortInit, none, none⟩

/-- The epilogue of `simulate`: after the loop, if either position is still
open, force-close the pair at the last values of the loop variables, with
the default reason `'Standard'`. -/
def finalize (zeta : ℚ) (st : SimState) : Except String (List LogRow) :=
  if st.short_pos.is_open = true ∨ st.long_pos.is_open = true then
    match st.lastDate, st.lastPrices with
    | some d, some kx =>
      match close_positions_std st.trade_log d st.short_pos st.long_pos kx.1 kx.2 zeta with
      | .error e => .error e
      | .ok r => .ok r.1
    | _, _ => .error "NameError: loop variable is not defined"
  else .ok st.trade_log

/-- `simulate` : folds the daily step over the input series and applies the
epilogue. -/
def simulate (trading_df : List TRow) (g j : ℚ) (s : Option ℚ) (M : ℕ)
    (zeta : ℚ) : Except String (List LogRow) :=
  match List.foldlM (simDay trading_df g j zeta s M) initState trading_df with
  | .error e => .error e
  | .ok final => finalize zeta final

/-! ### Helper lemmas about the pair-accounting operations -/

/-- On a position with populated numeric fields, `get_pnl` computes the
mark-to-market formula. -/
theorem Position.get_pnl_eq (p : Position) (c : ℚ) (a : ℤ) (price : ℚ)
    (hc : p.entry_cash = some c) (ha : p.amount = some a) :
    p.get_pnl price = some ((p.type : ℚ) * (a : ℚ) * price - (p.type : ℚ) * c) := by
  unfold Position.get_pnl
  rw [ha, hc]

/-- Characterization of `get_pnls` on two open, fully populated legs: the
combined pnl is `t = (pnl_short + pnl_long) * (1 - zeta)` at the resolved
prices, and the result is `[False, 0]` exactly when the stop-loss branch
fires (`t < 0`, `s` truthy, and the loss ratio exceeds `s` — with the
NumPy `inf` behaviour when `gross_cash = 0`). -/
theorem get_pnls_open_eq (short_pos long_pos : Position) (kxi xlp zeta : ℚ)
    (s : Option ℚ) (cs cl t : ℚ) (sa la : ℤ)
    (hso : short_pos.is_open = true) (hlo : long_pos.is_open = true)
    (hsc : short_pos.entry_cash = some cs) (hsa : short_pos.amount = some sa)
    (hlc : long_pos.entry_cash = some cl) (hla : long_pos.amount = some la)
    (ht : t = (((short_pos.type : ℚ) * (sa : ℚ) * (find_short_long short_pos long_pos kxi xlp).1
                - (short_pos.type : ℚ) * cs) +
               ((long_pos.type : ℚ) * (la : ℚ) * (find_short_long short_pos long_pos kxi xlp).2
                - (long_pos.type : ℚ) * cl)) * (1 - zeta)) :
    get_pnls short_pos long_pos kxi xlp zeta s =
      (match s with
       | some sv =>
         if t < 0 ∧ sv ≠ 0 then
           if cs * 2 = 0 ∨ |t| / (cs * 2) > sv then .ok (false, some 0)
           else .ok (true, some t)
         else .ok (true, some t)
       | none => .ok (true, some t)) := by
  subst ht
  unfold get_pnls
  rw [if_neg (by simp [hso, hlo])]
  simp only [Position.get_pnl, hsa, hsc, hla, hlc, Option.map_some']
  cases s <;> rfl

/-- `get_pnls` with a non-null stop-loss fraction, on two open legs:
explicit if-then-else form. -/
theorem get_pnls_open_some_eq (short_pos long_pos : Position) (kxi xlp zeta : ℚ)
    (sv : ℚ) (cs cl t : ℚ) (sa la : ℤ)
    (hso : short_pos.is_open = true) (hlo : long_pos.is_open = true)
    (hsc : short_pos.entry_cash = some cs) (hsa : short_pos.amount = some sa)
    (hlc : long_pos.entry_cash = some cl) (hla : long_pos.amount = some la)
    (ht : t = (((short_pos.type : ℚ) * (sa : ℚ) * (find_short_long short_pos long_pos kxi xlp).1
                - (short_pos.type : ℚ) * cs) +
               ((long_pos.type : ℚ) * (la : ℚ) * (find_short_long short_pos long_pos kxi xlp).2
                - (long_pos.type : ℚ) * cl)) * (1 - zeta)) :
    get_pnls short_pos long_pos kxi xlp zeta (some sv) =
      (if t < 0 ∧ sv ≠ 0 then
        if cs * 2 = 0 ∨ |t| / (cs * 2) > sv then .ok (false, some 0)
        else .ok (true, some t)
      else .ok (true, some t)) :=
  get_pnls_open_eq short_pos long_pos kxi xlp zeta (some sv) cs cl t sa la
    hso hlo hsc hsa hlc hla ht

/-- `get_pnls` with the stop-loss check disabled (`s = None`), on two open
legs, returns the not-triggered signal and the combined pnl. -/
theorem get_pnls_open_none_eq (short_pos long_pos : Position) (kxi xlp zeta : ℚ)
    (cs cl t : ℚ) (sa la : ℤ)
    (hso : short_pos.is_open = true) (hlo : long_pos.is_open = true)
    (hsc : short_pos.entry_cash = some cs) (hsa : short_pos.amount = some sa)
    (hlc : long_pos.entry_cash = some cl) (hla : long_pos.amount = some la)
    (ht : t = (((short_pos.type : ℚ) * (sa : ℚ) * (find_short_long short_pos long_pos kxi xlp).1
                - (short_pos.type : ℚ) * cs) +
               ((long_pos.type : ℚ) * (la : ℚ) * (find_short_long short_pos long_pos kxi xlp).2
                - (long_pos.type : ℚ) * cl)) * (1 - zeta)) :
    get_pnls short_pos long_pos kxi xlp zeta none = .ok (true, some t) :=
  get_pnls_open_eq short_pos long_pos kxi xlp zeta none cs cl t sa la
    hso hlo hsc hsa hlc hla ht

/-- `get_pnls` raises when either leg is not open. -/
theorem get_pnls_not_open_eq (short_pos long_pos : Position) (kxi xlp zeta : ℚ)
    (s : Option ℚ) (h : short_pos.is_open = false ∨ long_pos.is_open = false) :
    get_pnls short_pos long_pos kxi xlp zeta s =
      .error "AssertionError: Not all positions are open. Cannot get pnl." := by
  unfold get_pnls
  rw [if_pos h]

/-- The explicit floor in `pyRound` agrees with `Int.floor`. -/
theorem pyRound_floor (q : ℚ) : q.num.fdiv (q.den : ℤ) = ⌊q⌋ := by
  rw [Rat.floor_def]
  exact Int.fdiv_eq_ediv _ (Int.ofNat_nonneg _)

/-- Evaluation of `pyRound` when the fractional part is below one half. -/
theorem pyRound_of_lt_half (q : ℚ) (z : ℤ) (h1 : (z : ℚ) ≤ q) (h2 : q - z < 1 / 2) :
    pyRound q = z := by
  have hz : q.num.fdiv (q.den : ℤ) = z := by
    rw [pyRound_floor]
    exact Int.floor_eq_iff.mpr ⟨h1, by linarith⟩
  unfold pyRound
  rw [hz]
  simp only [if_pos h2]

/-- Evaluation of `pyRound` when the fractional part is above one half. -/
theorem pyRound_of_half_lt (q : ℚ) (z : ℤ) (h1 : (z : ℚ) ≤ q) (h2 : q < z + 1)
    (h3 : 1 / 2 < q - z) : pyRound q = z + 1 := by
  have hz : q.num.fdiv (q.den : ℤ) = z := by
    rw [pyRound_floor]
    exact Int.floor_eq_iff.mpr ⟨h1, h2⟩
  unfold pyRound
  rw [hz]
  rw [if_neg (by linarith), if_pos h3]

/-! ### Concrete fixtures used by witnesses and counterexamples -/

/-- A short leg opened on kxi with entry cash 100 at price 10 (10 shares). -/
def sDemo : Position := ⟨-1, "kxi", "2022-01-10", some 100, some 10, some 10⟩

/-- A long leg opened on xlp with entry cash 100 at price 20 (5 shares). -/
def lDemo : Position := ⟨1, "xlp", "2022-01-10", some 100, some 20, some 5⟩

/-- The result of opening a fresh long position on kxi with cash 100 at
price 3 (`round(100/3) = 33` shares). -/
def demoOpened3 : Position := ⟨1, "kxi", "2022-01-03", some 100, some 3, some 33⟩

/-- The result of opening a fresh long position on kxi with cash 100 at
price 5 (`round(100/5) = 20` shares). -/
def demoOpened5 : Position := ⟨1, "kxi", "2022-01-04", some 100, some 5, some 20⟩

/-! ### C1 — the stop-loss check of `get_pnls` -/

/-- C1 counterexample.  The claim reads "if `total_pnl < 0`, `s` is set
(non-null), and `|total_pnl| / gross_cash > s`, the check signals stop-loss
triggered and returns pnl = 0".  Take the open pair `sDemo`/`lDemo` at
prices `kxi = 12`, `xlp = 9` with `zeta = 0` and `s = some 0`: the combined
pnl is `-75 < 0`, `s` is non-null, and `75 / 200 > 0` — yet the code
returns the not-triggered signal with the actual pnl (`[True, -75]`),
because the Python guard `if (pnl < 0) and s:` treats `s = 0` as falsy.
(The triggered result would have been `.ok (false, some 0)`; the first
component `false` is the code's encoding of "triggered", as read by the
caller's `if not pnl_res[0]`.) -/
theorem get_pnls_trigger_counterexample :
    get_pnls sDemo lDemo 12 9 0 (some 0) = .ok (true, some (-75)) ∧
    (-75 : ℚ) < 0 ∧ (some (0 : ℚ)).isSome = true ∧ |(-75 : ℚ)| / (100 * 2) > 0 := by
  refine ⟨?_, by norm_num, rfl, by norm_num⟩
  rw [get_pnls_open_some_eq sDemo lDemo 12 9 0 0 100 100 (-75) 10 5 (by decide) (by decide)
    rfl rfl rfl rfl (by norm_num [sDemo, lDemo, find_short_long])]
  norm_num

/-- C1 (amended): the stop-loss check of `get_pnls`, with "s is set
(non-null)" amended to "s is set and nonzero" (Python truthiness of
`and s`), for pairs with nonzero entry cash (so that `|total_pnl| /
gross_cash` is the ordinary division the claim speaks of).  For every pair
of open legs with `total_pnl = (pnl_short + pnl_long) * (1 - zeta)` (legs
marked at the resolved prices) and `gross_cash = 2 * cs`:
if `total_pnl < 0`, `s` is set and nonzero, and `|total_pnl| / gross_cash
> s`, the check returns the triggered signal (`false` first component) and
pnl 0; otherwise the not-triggered signal (`true`) and the actual
`total_pnl`.  Calling it when either leg is not open raises the
`AssertionError` (and, being a pure function of its arguments, it changes
no state). -/
theorem get_pnls_stop_loss_amended :
    (∀ (short_pos long_pos : Position) (kxi xlp zeta sv cs cl t : ℚ) (sa la : ℤ),
      short_pos.is_open = true → long_pos.is_open = true →
      short_pos.entry_cash = some cs → short_pos.amount = some sa →
      long_pos.entry_cash = some cl → long_pos.amount = some la →
      cs ≠ 0 →
      t = (((short_pos.type : ℚ) * (sa : ℚ) * (find_short_long short_pos long_pos kxi xlp).1
              - (short_pos.type : ℚ) * cs) +
           ((long_pos.type : ℚ) * (la : ℚ) * (find_short_long short_pos long_pos kxi xlp).2
              - (long_pos.type : ℚ) * cl)) * (1 - zeta) →
      ((t < 0 ∧ sv ≠ 0 ∧ |t| / (cs * 2) > sv →
          get_pnls short_pos long_pos kxi xlp zeta (some sv) = .ok (false, some 0)) ∧
       (¬ (t < 0 ∧ sv ≠ 0 ∧ |t| / (cs * 2) > sv) →
          get_pnls short_pos long_pos kxi xlp zeta (some sv) = .ok (true, some t)))) ∧
    (∀ (short_pos long_pos : Position) (kxi xlp zeta : ℚ) (s : Option ℚ),
      short_pos.is_open = false ∨ long_pos.is_open = false →
      get_pnls short_pos long_pos kxi xlp zeta s =
        .error "AssertionError: Not all positions are open. Cannot get pnl.") := by
  constructor
  · intro short_pos long_pos kxi xlp zeta sv cs cl t sa la hso hlo hsc hsa hlc hla hcs ht
    have hgc : ¬ cs * 2 = 0 := by simp [mul_eq_zero, hcs]
    rw [get_pnls_open_some_eq short_pos long_pos kxi xlp zeta sv cs cl t sa la
      hso hlo hsc hsa hlc hla ht]
    constructor
    · rintro ⟨h1, h2, h3⟩
      rw [if_pos (And.intro h1 h2), if_pos (Or.inr h3)]
    · intro hn
      by_cases h12 : t < 0 ∧ sv ≠ 0
      · have h3 : ¬ (|t| / (cs * 2) > sv) := fun h3 => hn ⟨h12.1, h12.2, h3⟩
        rw [if_pos h12, if_neg (fun h => h.elim hgc h3)]
      · rw [if_neg h12]
  · intro short_pos long_pos kxi xlp zeta s h
    exact get_pnls_not_open_eq short_pos long_pos kxi xlp zeta s h

/-- C1 witness: the amended theorem applied at the concrete pair
`sDemo`/`lDemo` at prices `kxi = 15`, `xlp = 14`, `zeta = 0`,
`s = some (1/10)` — the combined pnl is `-80`, `80 / 200 > 1/10`, so the
check returns `[False, 0]`; and at a pair with a closed leg it raises. -/
theorem get_pnls_stop_loss_amended_witness :
    get_pnls sDemo lDemo 15 14 0 (some (1 / 10)) = .ok (false, some 0) ∧
    get_pnls shortInit lDemo 15 14 0 (some (1 / 10)) =
      .error "AssertionError: Not all positions are open. Cannot get pnl." := by
  constructor
  · exact ((get_pnls_stop_loss_amended.1 sDemo lDemo 15 14 0 (1 / 10) 100 100 (-80) 10 5
      rfl rfl rfl rfl rfl rfl (by norm_num) (by norm_num [sDemo, lDemo, find_short_long])).1
      ⟨by norm_num, by norm_num, by norm_num⟩)
  · exact get_pnls_stop_loss_amended.2 shortInit lDemo 15 14 0 (some (1 / 10)) (Or.inl rfl)

/-! ### C4 — P&L at the entry price -/

/-- C4 counterexample.  The claim says `get_pnl(p) == 0` at the entry price
for every position opened with entry cash `c` at price `p > 0`.  Opening a
fresh long position on kxi with `c = 100` at `p = 3` gives
`quantity = round(100/3) = 33`, and the P&L at the entry price is
`33 * 3 - 100 = -1 ≠ 0`: the rounding of the share count to a whole number
makes the entry-price P&L nonzero whenever `round(c/p) * p ≠ c`. -/
theorem pnl_at_entry_counterexample :
    longInit.openPos "kxi" "2022-01-03" 100 3 = .ok demoOpened3 ∧
    demoOpened3.get_pnl 3 = some (-1) ∧ ¬ ((-1 : ℚ) = 0) ∧ (0 : ℚ) < 3 := by
  have hk : ("kxi" : String) ≠ "" := by decide
  have hpy : pyRound (100 / 3 : ℚ) = 33 := pyRound_of_lt_half _ 33 (by norm_num) (by norm_num)
  refine ⟨?_, by norm_num [Position.get_pnl, demoOpened3], by norm_num, by norm_num⟩
  norm_num [Position.openPos, longInit, demoOpened3, Position.is_open, hk, hpy]

/-- C4 (amended): for every Position (long or short) opened with entry cash
`c` at entry price `p > 0`, the P&L at the entry price is
`direction * (round(c/p) * p - c)` — zero exactly when the rounded share
count reproduces the entry cash, `round(c/p) * p = c` (e.g. whenever `p`
divides `c` exactly), and nonzero otherwise. -/
theorem pnl_at_entry_amended (p p' : Position) (name date : String) (c pr : ℚ)
    (htype : p.type = 1 ∨ p.type = -1)
    (hclosed : p.is_open = false)
    (hname : name = "kxi" ∨ name = "xlp")
    (hpr : 0 < pr)
    (hopen : p.openPos name date c pr = .ok p') :
    p'.get_pnl pr = some ((p.type : ℚ) * ((pyRound (c / pr) : ℚ) * pr - c)) ∧
    (p'.get_pnl pr = some 0 ↔ (pyRound (c / pr) : ℚ) * pr = c) := by
  have hpr0 : pr ≠ 0 := ne_of_gt hpr
  have hT : (p.type : ℚ) ≠ 0 := by rcases htype with h | h <;> rw [h] <;> norm_num
  unfold Position.openPos at hopen
  rw [if_neg (by simp [hclosed]), if_neg (by rcases hname with h | h <;> simp [h]),
    if_neg hpr0] at hopen
  have hp' : p' = ⟨p.type, name, date, some c, some pr, some (pyRound (c / pr))⟩ :=
    (Except.ok.injEq _ _).mp hopen |>.symm
  subst hp'
  have hval : Position.get_pnl ⟨p.type, name, date, some c, some pr, some (pyRound (c / pr))⟩ pr
      = some ((p.type : ℚ) * (pyRound (c / pr) : ℚ) * pr - (p.type : ℚ) * c) := rfl
  constructor
  · rw [hval]
    exact congrArg some (by ring)
  · rw [hval]
    simp only [Option.some.injEq]
    rw [show (p.type : ℚ) * (pyRound (c / pr) : ℚ) * pr - (p.type : ℚ) * c
        = (p.type : ℚ) * ((pyRound (c / pr) : ℚ) * pr - c) from by ring,
      mul_eq_zero, sub_eq_zero]
    simp [hT]

/-- C4 witness: the amended theorem at `c = 100`, `p = 5` (an exact
division, `round(100/5) * 5 = 100`, so the entry-price P&L is zero). -/
theorem pnl_at_entry_amended_witness :
    demoOpened5.get_pnl 5 =
      some ((longInit.type : ℚ) * ((pyRound ((100 : ℚ) / 5) : ℚ) * 5 - 100)) ∧
    (demoOpened5.get_pnl 5 = some 0 ↔ (pyRound ((100 : ℚ) / 5) : ℚ) * 5 = 100) := by
  have hk : ("kxi" : String) ≠ "" := by decide
  have hpy : pyRound (20 : ℚ) = 20 := pyRound_of_lt_half _ 20 (by norm_num) (by norm_num)
  exact pnl_at_entry_amended longInit demoOpened5 "kxi" "2022-01-04" 100 5
    (Or.inl rfl) (by decide) (Or.inl rfl) (by norm_num)
    (by norm_num [Position.openPos, longInit, demoOpened5, Position.is_open, hk, hpy])

/-! ### C5 — closing a position and querying P&L afterwards -/

/-- C5 (code bug).  The first half of the claim holds: `close` on the open
position `demoOpened5` returns its realized P&L (`some 0`) and clears all
fields.  But the immediately following P&L query does NOT fail: the source
`Position.get_pnl` performs no open-check, so on the cleared position the
NaN sentinel fields propagate and it silently RETURNS the value NaN
(`none`) instead of raising — contradicting the spec's requirement that
evaluating P&L on a non-open leg fails fast (the pair-level `get_pnls`
does assert this; the leg-level `get_pnl` omits the check). -/
theorem get_pnl_after_close_returns_nan :
    longInit.openPos "kxi" "2022-01-04" 100 5 = .ok demoOpened5 ∧
    demoOpened5.close 5 = .ok (some 0, Position.cleared 1) ∧
    (Position.cleared 1).is_open = false ∧
    (Position.cleared 1).get_pnl 5 = none := by
  have hk : ("kxi" : String) ≠ "" := by decide
  have hpy : pyRound (20 : ℚ) = 20 := pyRound_of_lt_half _ 20 (by norm_num) (by norm_num)
  refine ⟨?_, ?_, by decide, by norm_num [Position.get_pnl, Position.cleared]⟩
  · norm_num [Position.openPos, longInit, demoOpened5, Position.is_open, hk, hpy]
  · norm_num [Position.close, demoOpened5, Position.is_open, Position.get_pnl,
      Position.cleared, hk]

/-! ### C8 — the combined pair P&L formula -/

/-- C8: for every pair of open legs (each holding one of the two distinct
instruments) and every `zeta`, the combined pair P&L computed by
`get_pnls` (stop-loss disabled) is `(pnl_short + pnl_long) * (1 - zeta)`,
each leg's P&L evaluated at the current price of the instrument that leg
holds; with `zeta = 0` it is the unweighted sum. -/
theorem combined_pnl_eq (short_pos long_pos : Position)
    (kxi xlp zeta cs cl ps pl : ℚ) (sa la : ℤ)
    (hso : short_pos.is_open = true) (hlo : long_pos.is_open = true)
    (hsc : short_pos.entry_cash = some cs) (hsa : short_pos.amount = some sa)
    (hlc : long_pos.entry_cash = some cl) (hla : long_pos.amount = some la)
    (hnames : short_pos.name = "kxi" ∧ long_pos.name = "xlp" ∨
              short_pos.name = "xlp" ∧ long_pos.name = "kxi")
    (hps : short_pos.get_pnl (if short_pos.name = "kxi" then kxi else xlp) = some ps)
    (hpl : long_pos.get_pnl (if long_pos.name = "kxi" then kxi else xlp) = some pl) :
    get_pnls short_pos long_pos kxi xlp zeta none = .ok (true, some ((ps + pl) * (1 - zeta))) ∧
    get_pnls short_pos long_pos kxi xlp 0 none = .ok (true, some ((ps + pl) * (1 - 0))) := by
  have hkx : ("kxi" : String) ≠ "xlp" := by decide
  rcases hnames with ⟨h1, h2⟩ | ⟨h1, h2⟩
  · have hfs : find_short_long short_pos long_pos kxi xlp = (kxi, xlp) := by
      simp [find_short_long, h1]
    rw [if_pos h1, Position.get_pnl_eq short_pos cs sa kxi hsc hsa,
      Option.some.injEq] at hps
    rw [if_neg (by rw [h2]; exact fun h => hkx h.symm),
      Position.get_pnl_eq long_pos cl la xlp hlc hla, Option.some.injEq] at hpl
    constructor
    · exact get_pnls_open_none_eq short_pos long_pos kxi xlp zeta cs cl
        ((ps + pl) * (1 - zeta)) sa la hso hlo hsc hsa hlc hla (by rw [hfs, hps, hpl])
    · exact get_pnls_open_none_eq short_pos long_pos kxi xlp 0 cs cl
        ((ps + pl) * (1 - 0)) sa la hso hlo hsc hsa hlc hla (by rw [hfs, hps, hpl])
  · have hfs : find_short_long short_pos long_pos kxi xlp = (xlp, kxi) := by
      simp [find_short_long, h1]
    rw [if_neg (by rw [h1]; exact fun h => hkx h.symm),
      Position.get_pnl_eq short_pos cs sa xlp hsc hsa, Option.some.injEq] at hps
    rw [if_pos h2, Position.get_pnl_eq long_pos cl la kxi hlc hla,
      Option.some.injEq] at hpl
    constructor
    · exact get_pnls_open_none_eq short_pos long_pos kxi xlp zeta cs cl
        ((ps + pl) * (1 - zeta)) sa la hso hlo hsc hsa hlc hla (by rw [hfs, hps, hpl])
    · exact get_pnls_open_none_eq short_pos long_pos kxi xlp 0 cs cl
        ((ps + pl) * (1 - 0)) sa la hso hlo hsc hsa hlc hla (by rw [hfs, hps, hpl])

/-- C8 witness: the pair `sDemo`/`lDemo` at prices `kxi = 9`, `xlp = 21`:
leg P&Ls `ps = 10`, `pl = 5`, combined `(10+5)*(1-1/2)` at `zeta = 1/2`
and `10+5` at `zeta = 0`. -/
theorem combined_pnl_eq_witness :
    get_pnls sDemo lDemo 9 21 (1 / 2) none =
      .ok (true, some (((10 : ℚ) + 5) * (1 - 1 / 2))) ∧
    get_pnls sDemo lDemo 9 21 0 none = .ok (true, some (((10 : ℚ) + 5) * (1 - 0))) :=
  combined_pnl_eq sDemo lDemo 9 21 (1 / 2) 100 100 10 5 10 5
    (by decide) (by decide) rfl rfl rfl rfl (Or.inl ⟨rfl, rfl⟩)
    (by norm_num [sDemo, Position.get_pnl])
    (by
      have hxk : ¬ ("xlp" : String) = "kxi" := by decide
      norm_num [lDemo, Position.get_pnl, hxk])

/-! ### C9 — a zero stop-loss fraction disables the check -/

/-- C9: `s = 0` disables the stop-loss check exactly as `s = None` does:
for every pair of open legs (whatever the combined loss), `get_pnls` with
`s = some 0` returns the not-triggered signal and the actual combined P&L,
and agrees with `get_pnls` with `s = none` — because the Python guard
`if (pnl < 0) and s:` treats `s = 0` as falsy, even though every negative
total satisfies `|total_pnl| / gross_cash > 0`. -/
theorem stop_loss_zero_disables (short_pos long_pos : Position)
    (kxi xlp zeta cs cl t : ℚ) (sa la : ℤ)
    (hso : short_pos.is_open = true) (hlo : long_pos.is_open = true)
    (hsc : short_pos.entry_cash = some cs) (hsa : short_pos.amount = some sa)
    (hlc : long_pos.entry_cash = some cl) (hla : long_pos.amount = some la)
    (ht : t = (((short_pos.type : ℚ) * (sa : ℚ) * (find_short_long short_pos long_pos kxi xlp).1
                - (short_pos.type : ℚ) * cs) +
               ((long_pos.type : ℚ) * (la : ℚ) * (find_short_long short_pos long_pos kxi xlp).2
                - (long_pos.type : ℚ) * cl)) * (1 - zeta)) :
    get_pnls short_pos long_pos kxi xlp zeta (some 0) = .ok (true, some t) ∧
    get_pnls short_pos long_pos kxi xlp zeta (some 0) =
      get_pnls short_pos long_pos kxi xlp zeta none := by
  have h1 := get_pnls_open_some_eq short_pos long_pos kxi xlp zeta 0 cs cl t sa la
    hso hlo hsc hsa hlc hla ht
  have h2 := get_pnls_open_none_eq short_pos long_pos kxi xlp zeta cs cl t sa la
    hso hlo hsc hsa hlc hla ht
  rw [if_neg (by simp)] at h1
  exact ⟨h1, h1.trans h2.symm⟩

/-- C9 witness: the pair `sDemo`/`lDemo` at prices `kxi = 15`, `xlp = 14`
(a large combined loss of 80 on gross cash 200) with `s = some 0`: the
check does not trigger and the actual P&L `-80` is returned, as with
`s = none`. -/
theorem stop_loss_zero_disables_witness :
    get_pnls sDemo lDemo 15 14 0 (some 0) = .ok (true, some (-80)) ∧
    get_pnls sDemo lDemo 15 14 0 (some 0) = get_pnls sDemo lDemo 15 14 0 none :=
  stop_loss_zero_disables sDemo lDemo 15 14 0 100 100 (-80) 10 5
    (by decide) (by decide) rfl rfl rfl rfl
    (by norm_num [sDemo, lDemo, find_short_long])

/-! ### C6 — closing a pair -/

/-- Characterization of `close_positions` on an open, fully populated pair:
it appends exactly one CLOSE row (prior spread type from the short leg's
instrument, `gross_cash = 2 * cs`, the combined pnl `t` computed by
`get_pnls` with the stop-loss disabled, the given reason) and returns both
legs cleared. -/
theorem close_positions_eq (trade_log : List LogRow) (date : String)
    (short_pos long_pos : Position) (kxi xlp zeta : ℚ) (reason : String)
    (cs cl t : ℚ) (sa la : ℤ)
    (hso : short_pos.is_open = true) (hlo : long_pos.is_open = true)
    (hsc : short_pos.entry_cash = some cs) (hsa : short_pos.amount = some sa)
    (hlc : long_pos.entry_cash = some cl) (hla : long_pos.amount = some la)
    (ht : t = (((short_pos.type : ℚ) * (sa : ℚ) * (find_short_long short_pos long_pos kxi xlp).1
                - (short_pos.type : ℚ) * cs) +
               ((long_pos.type : ℚ) * (la : ℚ) * (find_short_long short_pos long_pos kxi xlp).2
                - (long_pos.type : ℚ) * cl)) * (1 - zeta)) :
    close_positions trade_log date short_pos long_pos kxi xlp zeta reason =
      .ok (trade_log ++
        [⟨date, "CLOSE", if short_pos.name = "kxi" then "short" else "long",
          some (cs * 2), some t, kxi,
          if short_pos.name = "kxi" then short_pos.amount else long_pos.amount, xlp,
          if short_pos.name = "kxi" then long_pos.amount else short_pos.amount,
          some reason⟩],
        Position.cleared short_pos.type, Position.cleared long_pos.type) := by
  unfold close_positions
  rw [get_pnls_open_none_eq short_pos long_pos kxi xlp zeta cs cl t sa la
    hso hlo hsc hsa hlc hla ht]
  simp [Position.close, hso, hlo, hsc]

/-- C6: for every open pair, `close_positions` appends exactly one CLOSE row
carrying the prior spread type (from the short leg's instrument),
`gross_cash = 2 * cs` (twice the short leg's entry cash), the given reason,
and the combined P&L `t` computed by `get_pnls` with the stop-loss check
disabled (`s = None`) — so the recorded P&L is always the actual `t`, never
zeroed, whatever its sign or magnitude — and then clears both legs; the
reason defaults to `"Standard"` at the call sites that omit it
(`close_positions_std`). -/
theorem close_pair_spec (trade_log : List LogRow) (date : String)
    (short_pos long_pos : Position) (kxi xlp zeta : ℚ) (reason : String)
    (cs cl t : ℚ) (sa la : ℤ)
    (hso : short_pos.is_open = true) (hlo : long_pos.is_open = true)
    (hsc : short_pos.entry_cash = some cs) (hsa : short_pos.amount = some sa)
    (hlc : long_pos.entry_cash = some cl) (hla : long_pos.amount = some la)
    (ht : t = (((short_pos.type : ℚ) * (sa : ℚ) * (find_short_long short_pos long_pos kxi xlp).1
                - (short_pos.type : ℚ) * cs) +
               ((long_pos.type : ℚ) * (la : ℚ) * (find_short_long short_pos long_pos kxi xlp).2
                - (long_pos.type : ℚ) * cl)) * (1 - zeta)) :
    close_positions trade_log date short_pos long_pos kxi xlp zeta reason =
      .ok (trade_log ++
        [⟨date, "CLOSE", if short_pos.name = "kxi" then "short" else "long",
          some (cs * 2), some t, kxi,
          if short_pos.name = "kxi" then short_pos.amount else long_pos.amount, xlp,
          if short_pos.name = "kxi" then long_pos.amount else short_pos.amount,
          some reason⟩],
        Position.cleared short_pos.type, Position.cleared long_pos.type) ∧
    get_pnls short_pos long_pos kxi xlp zeta none = .ok (true, some t) ∧
    close_positions_std trade_log date short_pos long_pos kxi xlp zeta =
      close_positions trade_log date short_pos long_pos kxi xlp zeta "Standard" :=
  ⟨close_positions_eq trade_log date short_pos long_pos kxi xlp zeta reason cs cl t sa la
      hso hlo hsc hsa hlc hla ht,
   get_pnls_open_none_eq short_pos long_pos kxi xlp zeta cs cl t sa la
      hso hlo hsc hsa hlc hla ht,
   rfl⟩

/-- C6 witness: closing the pair `sDemo`/`lDemo` at prices `kxi = 15`,
`xlp = 14` (a combined loss of 80, far beyond any stop-loss threshold on
gross cash 200) records the actual P&L `-80` in the CLOSE row. -/
theorem close_pair_spec_witness :
    close_positions [] "2022-03-01" sDemo lDemo 15 14 0 "Standard" =
      .ok ([⟨"2022-03-01", "CLOSE", if sDemo.name = "kxi" then "short" else "long",
          some ((100 : ℚ) * 2), some (-80), 15,
          if sDemo.name = "kxi" then sDemo.amount else lDemo.amount, 14,
          if sDemo.name = "kxi" then lDemo.amount else sDemo.amount,
          some "Standard"⟩],
        Position.cleared sDemo.type, Position.cleared lDemo.type) ∧
    get_pnls sDemo lDemo 15 14 0 none = .ok (true, some (-80)) ∧
    close_positions_std [] "2022-03-01" sDemo lDemo 15 14 0 =
      close_positions [] "2022-03-01" sDemo lDemo 15 14 0 "Standard" := by
  have h := close_pair_spec [] "2022-03-01" sDemo lDemo 15 14 0 "Standard" 100 100 (-80) 10 5
    (by decide) (by decide) rfl rfl rfl rfl (by norm_num [sDemo, lDemo, find_short_long])
  simpa using h

/-! ### Helper lemmas about `open_positions` and the daily loop -/

/-- A cleared position is closed. -/
theorem cleared_is_open (t : ℤ) : (Position.cleared t).is_open = false := rfl

/-- Characterization of `open_positions` with spread direction `'short'` on
two closed legs at nonzero prices: the short leg opens on kxi, the long leg
on xlp, and one OPEN row is appended. -/
theorem open_positions_short_eq (trade_log : List LogRow) (sp lp : Position)
    (kxi xlp : ℚ) (date : String) (cash : ℚ)
    (hso : sp.is_open = false) (hlo : lp.is_open = false)
    (hk : kxi ≠ 0) (hx : xlp ≠ 0) :
    open_positions trade_log sp lp kxi xlp date cash "short" =
      .ok (trade_log ++ [⟨date, "OPEN", "short", some (cash * 2), none,
            kxi, some (pyRound (cash / kxi)), xlp, some (pyRound (cash / xlp)), none⟩],
        ⟨sp.type, "kxi", date, some cash, some kxi, some (pyRound (cash / kxi))⟩,
        ⟨lp.type, "xlp", date, some cash, some xlp, some (pyRound (cash / xlp))⟩) := by
  have hA : ¬ (("short" : String) ≠ "short" ∧ ("short" : String) ≠ "long") := by decide
  have hB : ¬ (("short" : String) = "long") := by decide
  have hC : ¬ (("xlp" : String) ≠ "kxi" ∧ ("xlp" : String) ≠ "xlp") := by decide
  have hD : ¬ (("kxi" : String) ≠ "kxi" ∧ ("kxi" : String) ≠ "xlp") := by decide
  unfold open_positions Position.openPos
  rw [if_neg hA, if_neg hB]
  simp [hso, hlo, hk, hx, hC, hD]

/-- Characterization of `open_positions` with spread direction `'long'` on
two closed legs at nonzero prices: the long leg opens on kxi, the short leg
on xlp, and one OPEN row is appended. -/
theorem open_positions_long_eq (trade_log : List LogRow) (sp lp : Position)
    (kxi xlp : ℚ) (date : String) (cash : ℚ)
    (hso : sp.is_open = false) (hlo : lp.is_open = false)
    (hk : kxi ≠ 0) (hx : xlp ≠ 0) :
    open_positions trade_log sp lp kxi xlp date cash "long" =
      .ok (trade_log ++ [⟨date, "OPEN", "long", some (cash * 2), none,
            kxi, some (pyRound (cash / kxi)), xlp, some (pyRound (cash / xlp)), none⟩],
        ⟨sp.type, "xlp", date, some cash, some xlp, some (pyRound (cash / xlp))⟩,
        ⟨lp.type, "kxi", date, some cash, some kxi, some (pyRound (cash / kxi))⟩) := by
  have hA : ¬ (("long" : String) ≠ "short" ∧ ("long" : String) ≠ "long") := by decide
  have hC : ¬ (("xlp" : String) ≠ "kxi" ∧ ("xlp" : String) ≠ "xlp") := by decide
  have hD : ¬ (("kxi" : String) ≠ "kxi" ∧ ("kxi" : String) ≠ "xlp") := by decide
  unfold open_positions Position.openPos
  rw [if_neg hA, if_pos rfl]
  simp [hso, hlo, hk, hx, hC, hD]

/-- Every successful `signalEval` leaves the `lastDate` field unchanged. -/
theorem signalEval_ok_lastDate (df : List TRow) (g j zeta : ℚ) (M : ℕ)
    (st : SimState) (row : TRow) (tc : ℚ) (st' : SimState)
    (h : signalEval df g j zeta M st row tc = .ok st') :
    st'.lastDate = st.lastDate := by
  unfold signalEval at h
  repeat' split at h
  all_goals first
    | exact Except.noConfusion h
    | (injection h with h2; subst h2; rfl)

/-- Every successful `simEval` leaves the `lastDate` field unchanged. -/
theorem simEval_ok_lastDate (df : List TRow) (g j zeta : ℚ) (s : Option ℚ) (M : ℕ)
    (st : SimState) (row : TRow) (st' : SimState)
    (h : simEval df g j zeta s M st row = .ok st') :
    st'.lastDate = st.lastDate := by
  unfold simEval at h
  repeat' split at h
  all_goals first
    | exact Except.noConfusion h
    | (injection h with h2; subst h2; rfl)
    | (have h3 := signalEval_ok_lastDate _ _ _ _ _ _ _ _ _ h; exact h3)

/-- Every successful daily step records the day's date in `lastDate` (the
loop variable `date` is assigned on every iteration). -/
theorem simDay_ok_lastDate (df : List TRow) (g j zeta : ℚ) (s : Option ℚ) (M : ℕ)
    (st : SimState) (row : TRow) (st' : SimState)
    (h : simDay df g j zeta s M st row = .ok st') :
    st'.lastDate = some row.date := by
  unfold simDay at h
  repeat' split at h
  all_goals first
    | exact Except.noConfusion h
    | (injection h with h2; subst h2; rfl)
    | (have h3 := simEval_ok_lastDate _ _ _ _ _ _ _ _ _ h; exact h3)

/-- Warm-up filter: days before `'2022-01-01'` only record the date. -/
theorem simDay_warmup (df : List TRow) (g j zeta : ℚ) (s : Option ℚ) (M : ℕ)
    (st : SimState) (row : TRow) (hw : strLt row.date "2022-01-01" = true) :
    simDay df g j zeta s M st row = .ok { st with lastDate := some row.date } := by
  unfold simDay
  rw [if_pos hw]

/-- Cool-down skip: with a cool-down date set and a day that does not match
it exactly, the step changes nothing but `lastDate` (this also covers
warm-up days, which are skipped first). -/
theorem simDay_skip (df : List TRow) (g j zeta : ℚ) (s : Option ℚ) (M : ℕ)
    (st : SimState) (row : TRow) (hsld : st.stop_loss_date ≠ "")
    (hne : row.date ≠ st.stop_loss_date) :
    simDay df g j zeta s M st row = .ok { st with lastDate := some row.date } := by
  unfold simDay
  by_cases hw : strLt row.date "2022-01-01" = true
  · rw [if_pos hw]
  · rw [if_neg hw, if_pos hsld, if_neg hne]

/-- Cool-down clear: on the day matching the cool-down date (past warm-up),
the step behaves exactly as the same step from the state with the
cool-down cleared. -/
theorem simDay_clear (df : List TRow) (g j zeta : ℚ) (s : Option ℚ) (M : ℕ)
    (st : SimState) (row : TRow) (hsld : st.stop_loss_date ≠ "")
    (heq : row.date = st.stop_loss_date) (hw : ¬ strLt row.date "2022-01-01" = true) :
    simDay df g j zeta s M st row =
      simDay df g j zeta s M { st with stop_loss_date := "" } row := by
  unfold simDay
  rw [if_neg hw, if_neg hw, if_pos hsld, if_pos heq, if_neg (by simp)]

/-- No cool-down set, past warm-up: the step is the day's evaluation. -/
theorem simDay_normal (df : List TRow) (g j zeta : ℚ) (s : Option ℚ) (M : ℕ)
    (st : SimState) (row : TRow) (hsld : st.stop_loss_date = "")
    (hw : ¬ strLt row.date "2022-01-01" = true) :
    simDay df g j zeta s M st row =
      simEval df g j zeta s M { st with lastDate := some row.date } row := by
  unfold simDay
  rw [if_neg hw, if_neg (by simp [hsld])]

/-- Stop-loss trigger inside the day's evaluation: with both legs open and
`get_pnls` signalling a trigger (first component `false`), the evaluation
sets the cool-down date from `addMonthStr`, appends exactly one CLOSE row
with reason `'STOP LOSS'` dated on the day, clears both legs, and does
nothing else. -/
theorem simEval_trigger (df : List TRow) (g j zeta : ℚ) (s : Option ℚ) (M : ℕ)
    (st : SimState) (row : TRow) (cs cl t : ℚ) (sa la : ℤ)
    (sld' : String) (p0 : Option ℚ)
    (hso : st.short_pos.is_open = true) (hlo : st.long_pos.is_open = true)
    (hsc : st.short_pos.entry_cash = some cs) (hsa : st.short_pos.amount = some sa)
    (hlc : st.long_pos.entry_cash = some cl) (hla : st.long_pos.amount = some la)
    (hpnls : get_pnls st.short_pos st.long_pos row.KXI_adj_close row.XLP_adj_close zeta s
      = .ok (false, p0))
    (haddm : addMonthStr row.date = .ok sld')
    (ht : t = (((st.short_pos.type : ℚ) * (sa : ℚ)
                * (find_short_long st.short_pos st.long_pos row.KXI_adj_close row.XLP_adj_close).1
                - (st.short_pos.type : ℚ) * cs) +
               ((st.long_pos.type : ℚ) * (la : ℚ)
                * (find_short_long st.short_pos st.long_pos row.KXI_adj_close row.XLP_adj_close).2
                - (st.long_pos.type : ℚ) * cl)) * (1 - zeta)) :
    simEval df g j zeta s M st row = .ok
      { st with
        trade_log := st.trade_log ++
          [⟨row.date, "CLOSE", if st.short_pos.name = "kxi" then "short" else "long",
            some (cs * 2), some t, row.KXI_adj_close,
            if st.short_pos.name = "kxi" then st.short_pos.amount else st.long_pos.amount,
            row.XLP_adj_close,
            if st.short_pos.name = "kxi" then st.long_pos.amount else st.short_pos.amount,
            some "STOP LOSS"⟩],
        short_pos := Position.cleared st.short_pos.type,
        long_pos := Position.cleared st.long_pos.type,
        stop_loss_date := sld',
        lastPrices := some (row.KXI_adj_close, row.XLP_adj_close) } := by
  unfold simEval
  rw [if_pos ⟨hlo, hso⟩, hpnls, close_positions_eq st.trade_log row.date st.short_pos
    st.long_pos row.KXI_adj_close row.XLP_adj_close zeta "STOP LOSS" cs cl t sa la
    hso hlo hsc hsa hlc hla ht, haddm]
  rfl

/-- No stop-loss trigger (both legs open): the day's evaluation continues
with the signal evaluation. -/
theorem simEval_no_trigger (df : List TRow) (g j zeta : ℚ) (s : Option ℚ) (M : ℕ)
    (st : SimState) (row : TRow) (p0 : Option ℚ)
    (hso : st.short_pos.is_open = true) (hlo : st.long_pos.is_open = true)
    (hpnls : get_pnls st.short_pos st.long_pos row.KXI_adj_close row.XLP_adj_close zeta s
      = .ok (true, p0)) :
    simEval df g j zeta s M st row =
      signalEval df g j zeta M
        { st with lastPrices := some (row.KXI_adj_close, row.XLP_adj_close) } row
        (row.N_t / 100) := by
  unfold simEval
  rw [if_pos ⟨hlo, hso⟩, hpnls]
  rfl

/-- Pair not fully open: the day's evaluation skips the stop-loss check and
goes straight to the signal evaluation. -/
theorem simEval_not_open (df : List TRow) (g j zeta : ℚ) (s : Option ℚ) (M : ℕ)
    (st : SimState) (row : TRow)
    (h : ¬ (st.long_pos.is_open = true ∧ st.short_pos.is_open = true)) :
    simEval df g j zeta s M st row =
      signalEval df g j zeta M
        { st with lastPrices := some (row.KXI_adj_close, row.XLP_adj_close) } row
        (row.N_t / 100) := by
  unfold simEval
  rw [if_neg h]

/-- Hold, short-spread case: `z > g` and the short leg already holds kxi —
the signal evaluation is a no-op. -/
theorem signalEval_hold_short (df : List TRow) (g j zeta : ℚ) (M : ℕ)
    (st : SimState) (row : TRow) (tc : ℚ) (kr xr : ℚ)
    (hrets : get_mday_returns df row M = .ok (kr, xr))
    (hz : kr - xr > g) (hname : st.short_pos.name = "kxi")
    (hlo : st.long_pos.is_open = true) :
    signalEval df g j zeta M st row tc = .ok st := by
  have habs : |kr - xr| > g := lt_of_lt_of_le hz (le_abs_self _)
  unfold signalEval
  rw [hrets]
  simp only [if_pos habs, if_pos hz, if_neg (by simp [hlo] :
    ¬ (st.long_pos.is_open = false ∧ st.short_pos.is_open = false)), if_pos hname]

/-- Hold, long-spread case: `z < -g` and the long leg already holds kxi —
the signal evaluation is a no-op. -/
theorem signalEval_hold_long (df : List TRow) (g j zeta : ℚ) (M : ℕ)
    (st : SimState) (row : TRow) (tc : ℚ) (kr xr : ℚ)
    (hrets : get_mday_returns df row M = .ok (kr, xr))
    (hg : 0 ≤ g)
    (hz : kr - xr < -g) (hname : st.long_pos.name = "kxi")
    (hlo : st.long_pos.is_open = true) :
    signalEval df g j zeta M st row tc = .ok st := by
  have habs : |kr - xr| > g := lt_of_lt_of_le (by linarith) (neg_le_abs _)
  have hng : ¬ (kr - xr > g) := by intro hgt; linarith
  unfold signalEval
  rw [hrets]
  simp only [if_pos habs, if_neg hng, if_pos hz, if_neg (by simp [hlo] :
    ¬ (st.long_pos.is_open = false ∧ st.short_pos.is_open = false)), if_pos hname]

/-- Same-day flip to short-spread: `z > g`, the pair is open in the
opposite direction (`short_pos.name ≠ 'kxi'`): exactly two rows are
appended — a CLOSE with reason `'Standard'`, then an OPEN of a short
spread at the same day's prices. -/
theorem signalEval_flip_short (df : List TRow) (g j zeta : ℚ) (M : ℕ)
    (st : SimState) (row : TRow) (tc : ℚ) (kr xr cs cl t : ℚ) (sa la : ℤ)
    (hrets : get_mday_returns df row M = .ok (kr, xr))
    (hz : kr - xr > g) (hname : ¬ st.short_pos.name = "kxi")
    (hso : st.short_pos.is_open = true) (hlo : st.long_pos.is_open = true)
    (hsc : st.short_pos.entry_cash = some cs) (hsa : st.short_pos.amount = some sa)
    (hlc : st.long_pos.entry_cash = some cl) (hla : st.long_pos.amount = some la)
    (hk : row.KXI_adj_close ≠ 0) (hx : row.XLP_adj_close ≠ 0)
    (ht : t = (((st.short_pos.type : ℚ) * (sa : ℚ)
                * (find_short_long st.short_pos st.long_pos row.KXI_adj_close row.XLP_adj_close).1
                - (st.short_pos.type : ℚ) * cs) +
               ((st.long_pos.type : ℚ) * (la : ℚ)
                * (find_short_long st.short_pos st.long_pos row.KXI_adj_close row.XLP_adj_close).2
                - (st.long_pos.type : ℚ) * cl)) * (1 - zeta)) :
    signalEval df g j zeta M st row tc = .ok
      { st with
        trade_log := st.trade_log ++
          [⟨row.date, "CLOSE", "long", some (cs * 2), some t, row.KXI_adj_close,
            st.long_pos.amount, row.XLP_adj_close, st.short_pos.amount, some "Standard"⟩,
           ⟨row.date, "OPEN", "short", some (tc * 2), none, row.KXI_adj_close,
            some (pyRound (tc / row.KXI_adj_close)), row.XLP_adj_close,
            some (pyRound (tc / row.XLP_adj_close)), none⟩],
        short_pos := ⟨st.short_pos.type, "kxi", row.date, some tc,
          some row.KXI_adj_close, some (pyRound (tc / row.KXI_adj_close))⟩,
        long_pos := ⟨st.long_pos.type, "xlp", row.date, some tc,
          some row.XLP_adj_close, some (pyRound (tc / row.XLP_adj_close))⟩ } := by
  have habs : |kr - xr| > g := lt_of_lt_of_le hz (le_abs_self _)
  unfold signalEval close_positions_std
  rw [hrets]
  simp only [if_pos habs, if_pos hz, if_neg (by simp [hlo] :
    ¬ (st.long_pos.is_open = false ∧ st.short_pos.is_open = false)), if_neg hname,
    close_positions_eq st.trade_log row.date st.short_pos st.long_pos
      row.KXI_adj_close row.XLP_adj_close zeta "Standard" cs cl t sa la
      hso hlo hsc hsa hlc hla ht]
  rw [open_positions_short_eq _ _ _ _ _ _ _ (cleared_is_open _) (cleared_is_open _) hk hx]
  simp [Position.cleared]

/-- Same-day flip to long-spread: `z < -g`, the pair is open in the
opposite direction (`long_pos.name ≠ 'kxi'`): exactly two rows are
appended — a CLOSE with reason `'Standard'`, then an OPEN of a long
spread at the same day's prices. -/
theorem signalEval_flip_long (df : List TRow) (g j zeta : ℚ) (M : ℕ)
    (st : SimState) (row : TRow) (tc : ℚ) (kr xr cs cl t : ℚ) (sa la : ℤ)
    (hrets : get_mday_returns df row M = .ok (kr, xr))
    (hg : 0 ≤ g)
    (hz : kr - xr < -g) (hname : ¬ st.long_pos.name = "kxi")
    (hso : st.short_pos.is_open = true) (hlo : st.long_pos.is_open = true)
    (hsc : st.short_pos.entry_cash = some cs) (hsa : st.short_pos.amount = some sa)
    (hlc : st.long_pos.entry_cash = some cl) (hla : st.long_pos.amount = some la)
    (hk : row.KXI_adj_close ≠ 0) (hx : row.XLP_adj_close ≠ 0)
    (hshort : st.short_pos.name = "kxi")
    (ht : t = (((st.short_pos.type : ℚ) * (sa : ℚ)
                * (find_short_long st.short_pos st.long_pos row.KXI_adj_close row.XLP_adj_close).1
                - (st.short_pos.type : ℚ) * cs) +
               ((st.long_pos.type : ℚ) * (la : ℚ)
                * (find_short_long st.short_pos st.long_pos row.KXI_adj_close row.XLP_adj_close).2
                - (st.long_pos.type : ℚ) * cl)) * (1 - zeta)) :
    signalEval df g j zeta M st row tc = .ok
      { st with
        trade_log := st.trade_log ++
          [⟨row.date, "CLOSE", "short", some (cs * 2), some t, row.KXI_adj_close,
            st.short_pos.amount, row.XLP_adj_close, st.long_pos.amount, some "Standard"⟩,
           ⟨row.date, "OPEN", "long", some (tc * 2), none, row.KXI_adj_close,
            some (pyRound (tc / row.KXI_adj_close)), row.XLP_adj_close,
            some (pyRound (tc / row.XLP_adj_close)), none⟩],
        short_pos := ⟨st.short_pos.type, "xlp", row.date, some tc,
          some row.XLP_adj_close, some (pyRound (tc / row.XLP_adj_close))⟩,
        long_pos := ⟨st.long_pos.type, "kxi", row.date, some tc,
          some row.KXI_adj_close, some (pyRound (tc / row.KXI_adj_close))⟩ } := by
  have habs : |kr - xr| > g := lt_of_lt_of_le (by linarith) (neg_le_abs _)
  have hng : ¬ (kr - xr > g) := by intro hgt; linarith
  unfold signalEval close_positions_std
  rw [hrets]
  simp only [if_pos habs, if_neg hng, if_pos hz, if_neg (by simp [hlo] :
    ¬ (st.long_pos.is_open = false ∧ st.short_pos.is_open = false)), if_neg hname,
    if_pos hshort,
    close_positions_eq st.trade_log row.date st.short_pos st.long_pos
      row.KXI_adj_close row.XLP_adj_close zeta "Standard" cs cl t sa la
      hso hlo hsc hsa hlc hla ht]
  rw [open_positions_long_eq _ _ _ _ _ _ _ (cleared_is_open _) (cleared_is_open _) hk hx]
  simp [Position.cleared]

/-- Characterization of `get_mday_returns` on the success path. -/
theorem get_mday_returns_eq (df : List TRow) (row : TRow) (m : ℕ)
    (sorted : List TRow) (idx : ℕ) (subdf : TRow)
    (hsort : sortByDate df = sorted)
    (hidx : sorted.findIdx? (fun r => decide (r.date = row.date)) = some idx)
    (hm : m ≤ idx) (hsub : sorted[idx - m]? = some subdf)
    (hk : subdf.KXI_adj_close ≠ 0) (hx : subdf.XLP_adj_close ≠ 0) :
    get_mday_returns df row m = .ok (row.KXI_adj_close / subdf.KXI_adj_close - 1,
      row.XLP_adj_close / subdf.XLP_adj_close - 1) := by
  subst hsort
  unfold get_mday_returns
  rw [hidx]
  simp only [if_pos hm, hsub, if_neg (show ¬ (subdf.KXI_adj_close = 0 ∨ subdf.XLP_adj_close = 0)
    from by simp [hk, hx])]

/-! ### C2 — the stop-loss cool-down of the simulation loop -/

/-- C2: the stop-loss cool-down.
Part 1 (trigger day): with no cool-down pending, past warm-up, both legs
open and the stop-loss check signalling a trigger, the daily step sets the
cool-down end-date to `addMonthStr` of the day (the embedding of
`strptime(date) + relativedelta(months=1)` — exactly one calendar month
later, day-of-month clamped), appends exactly one CLOSE row dated that day
with reason `'STOP LOSS'`, clears both legs, and takes no further action
that day (the resulting state is exactly the recorded one).
Part 2 (skip): while a cool-down date is pending, every day whose date is
not exactly that date leaves the ledger, both positions and the cool-down
unchanged.
Part 3 (resume): on the day that matches the cool-down date (past
warm-up), the step clears the cool-down and evaluates that same day
normally (it equals the step from the cleared state).
Part 4 (no rows while pending): over any run of days none of which
matches the pending date, the fold appends no ledger rows and changes no
position (only the `date` loop variable advances). -/
theorem simulate_stop_loss_cooldown (df : List TRow) (g j zeta : ℚ) (s : Option ℚ) (M : ℕ) :
    (∀ (st : SimState) (row : TRow) (cs cl t : ℚ) (sa la : ℤ) (sld' : String)
        (p0 : Option ℚ),
      st.stop_loss_date = "" → ¬ strLt row.date "2022-01-01" = true →
      st.short_pos.is_open = true → st.long_pos.is_open = true →
      st.short_pos.entry_cash = some cs → st.short_pos.amount = some sa →
      st.long_pos.entry_cash = some cl → st.long_pos.amount = some la →
      get_pnls st.short_pos st.long_pos row.KXI_adj_close row.XLP_adj_close zeta s
        = .ok (false, p0) →
      addMonthStr row.date = .ok sld' →
      t = (((st.short_pos.type : ℚ) * (sa : ℚ)
            * (find_short_long st.short_pos st.long_pos row.KXI_adj_close row.XLP_adj_close).1
            - (st.short_pos.type : ℚ) * cs) +
           ((st.long_pos.type : ℚ) * (la : ℚ)
            * (find_short_long st.short_pos st.long_pos row.KXI_adj_close row.XLP_adj_close).2
            - (st.long_pos.type : ℚ) * cl)) * (1 - zeta) →
      simDay df g j zeta s M st row = .ok
        { st with
          trade_log := st.trade_log ++
            [⟨row.date, "CLOSE", if st.short_pos.name = "kxi" then "short" else "long",
              some (cs * 2), some t, row.KXI_adj_close,
              if st.short_pos.name = "kxi" then st.short_pos.amount else st.long_pos.amount,
              row.XLP_adj_close,
              if st.short_pos.name = "kxi" then st.long_pos.amount else st.short_pos.amount,
              some "STOP LOSS"⟩],
          short_pos := Position.cleared st.short_pos.type,
          long_pos := Position.cleared st.long_pos.type,
          stop_loss_date := sld',
          lastDate := some row.date,
          lastPrices := some (row.KXI_adj_close, row.XLP_adj_close) }) ∧
    (∀ (st : SimState) (row : TRow), st.stop_loss_date ≠ "" →
      row.date ≠ st.stop_loss_date →
      simDay df g j zeta s M st row = .ok { st with lastDate := some row.date }) ∧
    (∀ (st : SimState) (row : TRow), st.stop_loss_date ≠ "" →
      row.date = st.stop_loss_date → ¬ strLt row.date "2022-01-01" = true →
      simDay df g j zeta s M st row =
        simDay df g j zeta s M { st with stop_loss_date := "" } row) ∧
    (∀ (st : SimState) (rows : List TRow), st.stop_loss_date ≠ "" →
      (∀ r ∈ rows, r.date ≠ st.stop_loss_date) →
      ∃ ld, List.foldlM (simDay df g j zeta s M) st rows =
        .ok { st with lastDate := ld }) := by
  refine ⟨?_, ?_, ?_, ?_⟩
  · intro st row cs cl t sa la sld' p0 hsld hw hso hlo hsc hsa hlc hla hpnls haddm ht
    rw [simDay_normal df g j zeta s M st row hsld hw]
    have h := simEval_trigger df g j zeta s M { st with lastDate := some row.date } row
      cs cl t sa la sld' p0 hso hlo hsc hsa hlc hla hpnls haddm ht
    exact h
  · intro st row hsld hne
    exact simDay_skip df g j zeta s M st row hsld hne
  · intro st row hsld heq hw
    exact simDay_clear df g j zeta s M st row hsld heq hw
  · intro st rows
    induction rows generalizing st with
    | nil =>
      intro h1 h2
      exact ⟨st.lastDate, rfl⟩
    | cons r rest ih =>
      intro h1 h2
      obtain ⟨ld, hld⟩ := ih { st with lastDate := some r.date } h1
        (fun x hx => h2 x (List.mem_cons_of_mem r hx))
      refine ⟨ld, ?_⟩
      rw [List.foldlM_cons, simDay_skip df g j zeta s M st r h1
        (h2 r (List.mem_cons_self r rest))]
      exact hld

/-- The state with an open long-spread pair (`lDemo` long on kxi is not the
case here: `lDemo` holds xlp and `sDemo` holds kxi — a short spread). -/
def stOpen : SimState := ⟨[], "", lDemo, sDemo, none, none⟩

/-- A trading day during the simulation period. -/
def rowMay : TRow := ⟨"2022-05-10", 15, 14, 1000⟩

/-- C2 witness: part 1 of the cool-down theorem at the concrete open pair
`stOpen` on `2022-05-10` with `s = 1/10`: the combined loss is 80 on gross
cash 200, the check triggers, the cool-down end-date becomes `2022-06-10`
(one calendar month later), and exactly one `STOP LOSS` CLOSE row dated
`2022-05-10` is appended. -/
theorem simulate_stop_loss_cooldown_witness :
    simDay [] 1 0 0 (some (1 / 10)) 1 stOpen rowMay = .ok
      { stOpen with
        trade_log := stOpen.trade_log ++
          [⟨rowMay.date, "CLOSE", if stOpen.short_pos.name = "kxi" then "short" else "long",
            some ((100 : ℚ) * 2), some (-80), rowMay.KXI_adj_close,
            if stOpen.short_pos.name = "kxi" then stOpen.short_pos.amount
              else stOpen.long_pos.amount,
            rowMay.XLP_adj_close,
            if stOpen.short_pos.name = "kxi" then stOpen.long_pos.amount
              else stOpen.short_pos.amount,
            some "STOP LOSS"⟩],
        short_pos := Position.cleared stOpen.short_pos.type,
        long_pos := Position.cleared stOpen.long_pos.type,
        stop_loss_date := "2022-06-10",
        lastDate := some rowMay.date,
        lastPrices := some (rowMay.KXI_adj_close, rowMay.XLP_adj_close) } := by
  refine (simulate_stop_loss_cooldown [] 1 0 0 (some (1 / 10)) 1).1 stOpen rowMay
    100 100 (-80) 10 5 "2022-06-10" (some 0) rfl (by decide) (by decide) (by decide)
    rfl rfl rfl rfl ?_ (by rfl) ?_
  · show get_pnls sDemo lDemo 15 14 0 (some (1 / 10)) = .ok (false, some 0)
    rw [get_pnls_open_some_eq sDemo lDemo 15 14 0 (1 / 10) 100 100 (-80) 10 5
      (by decide) (by decide) rfl rfl rfl rfl (by norm_num [sDemo, lDemo, find_short_long])]
    norm_num
  · norm_num [stOpen, sDemo, lDemo, rowMay, find_short_long]

/-! ### C3 — hold and same-day flip -/

/-- C3: entry logic with a pair already open, on a day past warm-up with no
cool-down pending and the stop-loss check not triggering, where the signal
`z = kr - xr` exceeds the entry threshold in absolute value.
Parts 1-2 (hold): if the open pair is already in the desired direction
(`z > g` with the short leg on kxi, or `z < -g` with the long leg on kxi),
the step appends no ledger rows and leaves both positions unchanged.
Parts 3-4 (same-day flip): if the open pair is in the opposite direction,
the step appends exactly two rows — first a CLOSE with reason
`'Standard'`, then an OPEN in the desired direction at the same day's
prices — and reopens both legs accordingly.  (For the `z < -g` parts,
`0 ≤ g` makes the two signal branches mutually exclusive, as the code's
`if z > g / elif z < -g` requires; the nonzero-price hypotheses make the
share-count division of the reopening well defined.) -/
theorem simulate_hold_and_flip (df : List TRow) (g j zeta : ℚ) (s : Option ℚ) (M : ℕ) :
    (∀ (st : SimState) (row : TRow) (kr xr : ℚ) (p0 : Option ℚ),
      st.stop_loss_date = "" → ¬ strLt row.date "2022-01-01" = true →
      st.short_pos.is_open = true → st.long_pos.is_open = true →
      get_pnls st.short_pos st.long_pos row.KXI_adj_close row.XLP_adj_close zeta s
        = .ok (true, p0) →
      get_mday_returns df row M = .ok (kr, xr) →
      kr - xr > g → st.short_pos.name = "kxi" →
      simDay df g j zeta s M st row = .ok
        { st with lastDate := some row.date,
                  lastPrices := some (row.KXI_adj_close, row.XLP_adj_close) }) ∧
    (∀ (st : SimState) (row : TRow) (kr xr : ℚ) (p0 : Option ℚ),
      st.stop_loss_date = "" → ¬ strLt row.date "2022-01-01" = true →
      st.short_pos.is_open = true → st.long_pos.is_open = true →
      get_pnls st.short_pos st.long_pos row.KXI_adj_close row.XLP_adj_close zeta s
        = .ok (true, p0) →
      get_mday_returns df row M = .ok (kr, xr) →
      0 ≤ g → kr - xr < -g → st.long_pos.name = "kxi" →
      simDay df g j zeta s M st row = .ok
        { st with lastDate := some row.date,
                  lastPrices := some (row.KXI_adj_close, row.XLP_adj_close) }) ∧
    (∀ (st : SimState) (row : TRow) (kr xr cs cl t : ℚ) (sa la : ℤ) (p0 : Option ℚ),
      st.stop_loss_date = "" → ¬ strLt row.date "2022-01-01" = true →
      st.short_pos.is_open = true → st.long_pos.is_open = true →
      st.short_pos.entry_cash = some cs → st.short_pos.amount = some sa →
      st.long_pos.entry_cash = some cl → st.long_pos.amount = some la →
      get_pnls st.short_pos st.long_pos row.KXI_adj_close row.XLP_adj_close zeta s
        = .ok (true, p0) →
      get_mday_returns df row M = .ok (kr, xr) →
      kr - xr > g → ¬ st.short_pos.name = "kxi" →
      row.KXI_adj_close ≠ 0 → row.XLP_adj_close ≠ 0 →
      t = (((st.short_pos.type : ℚ) * (sa : ℚ)
            * (find_short_long st.short_pos st.long_pos row.KXI_adj_close row.XLP_adj_close).1
            - (st.short_pos.type : ℚ) * cs) +
           ((st.long_pos.type : ℚ) * (la : ℚ)
            * (find_short_long st.short_pos st.long_pos row.KXI_adj_close row.XLP_adj_close).2
            - (st.long_pos.type : ℚ) * cl)) * (1 - zeta) →
      simDay df g j zeta s M st row = .ok
        { st with
          trade_log := st.trade_log ++
            [⟨row.date, "CLOSE", "long", some (cs * 2), some t, row.KXI_adj_close,
              st.long_pos.amount, row.XLP_adj_close, st.short_pos.amount, some "Standard"⟩,
             ⟨row.date, "OPEN", "short", some ((row.N_t / 100) * 2), none, row.KXI_adj_close,
              some (pyRound ((row.N_t / 100) / row.KXI_adj_close)), row.XLP_adj_close,
              some (pyRound ((row.N_t / 100) / row.XLP_adj_close)), none⟩],
          short_pos := ⟨st.short_pos.type, "kxi", row.date, some (row.N_t / 100),
            some row.KXI_adj_close, some (pyRound ((row.N_t / 100) / row.KXI_adj_close))⟩,
          long_pos := ⟨st.long_pos.type, "xlp", row.date, some (row.N_t / 100),
            some row.XLP_adj_close, some (pyRound ((row.N_t / 100) / row.XLP_adj_close))⟩,
          lastDate := some row.date,
          lastPrices := some (row.KXI_adj_close, row.XLP_adj_close) }) ∧
    (∀ (st : SimState) (row : TRow) (kr xr cs cl t : ℚ) (sa la : ℤ) (p0 : Option ℚ),
      st.stop_loss_date = "" → ¬ strLt row.date "2022-01-01" = true →
      st.short_pos.is_open = true → st.long_pos.is_open = true →
      st.short_pos.entry_cash = some cs → st.short_pos.amount = some sa →
      st.long_pos.entry_cash = some cl → st.long_pos.amount = some la →
      get_pnls st.short_pos st.long_pos row.KXI_adj_close row.XLP_adj_close zeta s
        = .ok (true, p0) →
      get_mday_returns df row M = .ok (kr, xr) →
      0 ≤ g → kr - xr < -g → ¬ st.long_pos.name = "kxi" →
      st.short_pos.name = "kxi" →
      row.KXI_adj_close ≠ 0 → row.XLP_adj_close ≠ 0 →
      t = (((st.short_pos.type : ℚ) * (sa : ℚ)
            * (find_short_long st.short_pos st.long_pos row.KXI_adj_close row.XLP_adj_close).1
            - (st.short_pos.type : ℚ) * cs) +
           ((st.long_pos.type : ℚ) * (la : ℚ)
            * (find_short_long st.short_pos st.long_pos row.KXI_adj_close row.XLP_adj_close).2
            - (st.long_pos.type : ℚ) * cl)) * (1 - zeta) →
      simDay df g j zeta s M st row = .ok
        { st with
          trade_log := st.trade_log ++
            [⟨row.date, "CLOSE", "short", some (cs * 2), some t, row.KXI_adj_close,
              st.short_pos.amount, row.XLP_adj_close, st.long_pos.amount, some "Standard"⟩,
             ⟨row.date, "OPEN", "long", some ((row.N_t / 100) * 2), none, row.KXI_adj_close,
              some (pyRound ((row.N_t / 100) / row.KXI_adj_close)), row.XLP_adj_close,
              some (pyRound ((row.N_t / 100) / row.XLP_adj_close)), none⟩],
          short_pos := ⟨st.short_pos.type, "xlp", row.date, some (row.N_t / 100),
            some row.XLP_adj_close, some (pyRound ((row.N_t / 100) / row.XLP_adj_close))⟩,
          long_pos := ⟨st.long_pos.type, "kxi", row.date, some (row.N_t / 100),
            some row.KXI_adj_close, some (pyRound ((row.N_t / 100) / row.KXI_adj_close))⟩,
          lastDate := some row.date,
          lastPrices := some (row.KXI_adj_close, row.XLP_adj_close) }) := by
  refine ⟨?_, ?_, ?_, ?_⟩
  · intro st row kr xr p0 hsld hw hso hlo hpnls hrets hz hname
    rw [simDay_normal df g j zeta s M st row hsld hw,
      simEval_no_trigger df g j zeta s M { st with lastDate := some row.date } row p0
        hso hlo hpnls]
    exact signalEval_hold_short df g j zeta M _ row (row.N_t / 100) kr xr hrets hz hname hlo
  · intro st row kr xr p0 hsld hw hso hlo hpnls hrets hg hz hname
    rw [simDay_normal df g j zeta s M st row hsld hw,
      simEval_no_trigger df g j zeta s M { st with lastDate := some row.date } row p0
        hso hlo hpnls]
    exact signalEval_hold_long df g j zeta M _ row (row.N_t / 100) kr xr hrets hg hz hname hlo
  · intro st row kr xr cs cl t sa la p0 hsld hw hso hlo hsc hsa hlc hla hpnls hrets hz
      hname hk hx ht
    rw [simDay_normal df g j zeta s M st row hsld hw,
      simEval_no_trigger df g j zeta s M { st with lastDate := some row.date } row p0
        hso hlo hpnls]
    exact signalEval_flip_short df g j zeta M _ row (row.N_t / 100) kr xr cs cl t sa la
      hrets hz hname hso hlo hsc hsa hlc hla hk hx ht
  · intro st row kr xr cs cl t sa la p0 hsld hw hso hlo hsc hsa hlc hla hpnls hrets hg hz
      hname hshort hk hx ht
    rw [simDay_normal df g j zeta s M st row hsld hw,
      simEval_no_trigger df g j zeta s M { st with lastDate := some row.date } row p0
        hso hlo hpnls]
    exact signalEval_flip_long df g j zeta M _ row (row.N_t / 100) kr xr cs cl t sa la
      hrets hg hz hname hso hlo hsc hsa hlc hla hk hx hshort ht

/-- The two-day series used for the flip witness: kxi rallies 30% on day 2. -/
def dfFlip : List TRow := [⟨"2022-03-01", 10, 10, 1000⟩, ⟨"2022-03-02", 13, 10, 1000⟩]

/-- Day 2 of `dfFlip`. -/
def rowFlip : TRow := ⟨"2022-03-02", 13, 10, 1000⟩

/-- A long leg open on kxi (long spread). -/
def lKxi : Position := ⟨1, "kxi", "2022-02-01", some 100, some 10, some 10⟩

/-- A short leg open on xlp (long spread). -/
def sXlp : Position := ⟨-1, "xlp", "2022-02-01", some 100, some 20, some 5⟩

/-- A simulation state holding an open long-spread pair. -/
def stLong : SimState := ⟨[], "", lKxi, sXlp, none, none⟩

/-- C3 witness: the flip-to-short part on the concrete long-spread state
`stLong` and day `rowFlip` (signal `z = 3/10 > g = 1/5`): exactly two rows
are appended, a CLOSE with reason `'Standard'` and an OPEN of the short
spread at day-2 prices. -/
theorem simulate_hold_and_flip_witness :
    simDay dfFlip (1 / 5) 0 0 none 1 stLong rowFlip = .ok
      { stLong with
        trade_log := stLong.trade_log ++
          [⟨rowFlip.date, "CLOSE", "long", some ((100 : ℚ) * 2), some 80,
            rowFlip.KXI_adj_close, stLong.long_pos.amount, rowFlip.XLP_adj_close,
            stLong.short_pos.amount, some "Standard"⟩,
           ⟨rowFlip.date, "OPEN", "short", some ((rowFlip.N_t / 100) * 2), none,
            rowFlip.KXI_adj_close, some (pyRound ((rowFlip.N_t / 100) / rowFlip.KXI_adj_close)),
            rowFlip.XLP_adj_close, some (pyRound ((rowFlip.N_t / 100) / rowFlip.XLP_adj_close)),
            none⟩],
        short_pos := ⟨stLong.short_pos.type, "kxi", rowFlip.date, some (rowFlip.N_t / 100),
          some rowFlip.KXI_adj_close, some (pyRound ((rowFlip.N_t / 100) / rowFlip.KXI_adj_close))⟩,
        long_pos := ⟨stLong.long_pos.type, "xlp", rowFlip.date, some (rowFlip.N_t / 100),
          some rowFlip.XLP_adj_close, some (pyRound ((rowFlip.N_t / 100) / rowFlip.XLP_adj_close))⟩,
        lastDate := some rowFlip.date,
        lastPrices := some (rowFlip.KXI_adj_close, rowFlip.XLP_adj_close) } := by
  refine (simulate_hold_and_flip dfFlip (1 / 5) 0 0 none 1).2.2.1 stLong rowFlip
    (13 / 10 - 1) (10 / 10 - 1) 100 100 80 5 10 (some 80) rfl (by decide) (by decide)
    (by decide) rfl rfl rfl rfl ?_ ?_ (by norm_num) (by decide) (by norm_num [rowFlip])
    (by norm_num [rowFlip]) ?_
  · show get_pnls sXlp lKxi 13 10 0 none = .ok (true, some 80)
    have hxk : ¬ ("xlp" : String) = "kxi" := by decide
    exact get_pnls_open_none_eq sXlp lKxi 13 10 0 100 100 80 5 10 (by decide) (by decide)
      rfl rfl rfl rfl (by norm_num [sXlp, lKxi, find_short_long, hxk])
  · show get_mday_returns dfFlip rowFlip 1 = .ok (13 / 10 - 1, 10 / 10 - 1)
    exact get_mday_returns_eq dfFlip rowFlip 1 dfFlip 1 ⟨"2022-03-01", 10, 10, 1000⟩
      rfl rfl (by norm_num) rfl (by norm_num) (by norm_num)
  · have hxk : ¬ ("xlp" : String) = "kxi" := by decide
    norm_num [stLong, sXlp, lKxi, rowFlip, find_short_long, hxk]

/-! ### C7 — end of series -/

/-- C7: end of series.
Part 1: after the loop, if the pair is still open, the epilogue appends
exactly one CLOSE row with reason `'Standard'`, dated with the loop's last
date and priced at the loop's last prices, and closes both legs (the
closing itself happens inside `close_positions`, whose returned positions
are discarded by the epilogue since the run is over).
Part 2: if no pair is open after the last day, no extra row is appended.
Part 3: after folding the daily step over any series, the recorded last
date is the date of the last row of the series.
Part 4: `simulate` is exactly that fold followed by the epilogue. -/
theorem simulate_end_of_series (g j zeta : ℚ) (s : Option ℚ) (M : ℕ) :
    (∀ (st : SimState) (d : String) (k x cs cl t : ℚ) (sa la : ℤ),
      st.lastDate = some d → st.lastPrices = some (k, x) →
      st.short_pos.is_open = true → st.long_pos.is_open = true →
      st.short_pos.entry_cash = some cs → st.short_pos.amount = some sa →
      st.long_pos.entry_cash = some cl → st.long_pos.amount = some la →
      t = (((st.short_pos.type : ℚ) * (sa : ℚ)
            * (find_short_long st.short_pos st.long_pos k x).1
            - (st.short_pos.type : ℚ) * cs) +
           ((st.long_pos.type : ℚ) * (la : ℚ)
            * (find_short_long st.short_pos st.long_pos k x).2
            - (st.long_pos.type : ℚ) * cl)) * (1 - zeta) →
      finalize zeta st = .ok (st.trade_log ++
        [⟨d, "CLOSE", if st.short_pos.name = "kxi" then "short" else "long",
          some (cs * 2), some t, k,
          if st.short_pos.name = "kxi" then st.short_pos.amount else st.long_pos.amount, x,
          if st.short_pos.name = "kxi" then st.long_pos.amount else st.short_pos.amount,
          some "Standard"⟩])) ∧
    (∀ st : SimState, st.short_pos.is_open = false → st.long_pos.is_open = false →
      finalize zeta st = .ok st.trade_log) ∧
    (∀ (df rows : List TRow) (lastRow : TRow) (st st' : SimState),
      List.foldlM (simDay df g j zeta s M) st (rows ++ [lastRow]) = .ok st' →
      st'.lastDate = some lastRow.date) ∧
    (∀ df : List TRow, simulate df g j s M zeta =
      match List.foldlM (simDay df g j zeta s M) initState df with
      | .error e => .error e
      | .ok final => finalize zeta final) := by
  refine ⟨?_, ?_, ?_, fun df => rfl⟩
  · intro st d k x cs cl t sa la hd hp hso hlo hsc hsa hlc hla ht
    unfold finalize close_positions_std
    rw [if_pos (Or.inl hso)]
    rw [hd, hp]
    show (match close_positions st.trade_log d st.short_pos st.long_pos k x zeta "Standard" with
      | Except.error e => Except.error e
      | Except.ok r => Except.ok r.1) = _
    rw [close_positions_eq st.trade_log d st.short_pos st.long_pos k x zeta "Standard"
      cs cl t sa la hso hlo hsc hsa hlc hla ht]
  · intro st h1 h2
    unfold finalize
    rw [if_neg (by simp [h1, h2])]
  · intro df rows lastRow st st' h
    rw [List.foldlM_append] at h
    cases hE : List.foldlM (simDay df g j zeta s M) st rows with
    | error e => rw [hE] at h; exact Except.noConfusion h
    | ok st2 =>
      rw [hE] at h
      have hbind : ((Except.ok st2 >>= fun s2 =>
          List.foldlM (simDay df g j zeta s M) s2 [lastRow]) : Except String SimState)
          = (simDay df g j zeta s M st2 lastRow >>= fun s3 => Except.ok s3) := rfl
      rw [hbind] at h
      cases hD : simDay df g j zeta s M st2 lastRow with
      | error e => rw [hD] at h; exact Except.noConfusion h
      | ok st3 =>
        rw [hD] at h
        have h4 : st3 = st' := Except.ok.inj h
        subst h4
        exact simDay_ok_lastDate df g j zeta s M st2 lastRow st3 hD

/-- A post-loop state with the pair of `stOpen` still open, last date
`2022-09-30` and last prices `(15, 14)`. -/
def stEnd : SimState := ⟨[], "", lDemo, sDemo, some "2022-09-30", some (15, 14)⟩

/-- C7 witness: part 1 at the concrete state `stEnd`: the epilogue appends
exactly one CLOSE row dated `2022-09-30` with reason `'Standard'`; and part
2 at the initial (closed) state: no row is appended. -/
theorem simulate_end_of_series_witness :
    finalize 0 stEnd = .ok (stEnd.trade_log ++
      [⟨"2022-09-30", "CLOSE", if stEnd.short_pos.name = "kxi" then "short" else "long",
        some ((100 : ℚ) * 2), some (-80), 15,
        if stEnd.short_pos.name = "kxi" then stEnd.short_pos.amount else stEnd.long_pos.amount,
        14,
        if stEnd.short_pos.name = "kxi" then stEnd.long_pos.amount else stEnd.short_pos.amount,
        some "Standard"⟩]) ∧
    finalize 0 initState = .ok initState.trade_log := by
  constructor
  · exact (simulate_end_of_series 0 0 0 none 1).1 stEnd "2022-09-30" 15 14 100 100 (-80)
      10 5 rfl rfl (by decide) (by decide) rfl rfl rfl rfl
      (by norm_num [stEnd, sDemo, lDemo, find_short_long])
  · exact (simulate_end_of_series 0 0 0 none 1).2.1 initState (by decide) (by decide)

/-! ### C10 — the pair invariant of the simulation loop -/

/-- The pair invariant: the two legs are both open or both closed, and when
open they hold distinct instruments — one kxi, the other xlp. -/
def pairInv (long_pos short_pos : Position) : Prop :=
  long_pos.is_open = short_pos.is_open ∧
  (long_pos.is_open = true →
    long_pos.name = "kxi" ∧ short_pos.name = "xlp" ∨
    long_pos.name = "xlp" ∧ short_pos.name = "kxi")

/-- Any successful `close_positions` returns both legs cleared. -/
theorem close_positions_ok_shape (trade_log : List LogRow) (date : String)
    (short_pos long_pos : Position) (kxi xlp zeta : ℚ) (reason : String)
    (res : List LogRow × Position × Position)
    (h : close_positions trade_log date short_pos long_pos kxi xlp zeta reason = .ok res) :
    res.2.1 = Position.cleared short_pos.type ∧ res.2.2 = Position.cleared long_pos.type := by
  unfold close_positions Position.close at h
  repeat' split at h
  all_goals first
    | exact Except.noConfusion h
    | (injection h with h2; subst h2; exact ⟨rfl, rfl⟩)
    | simp_all

/-- Any successful `Position.openPos` returns a position with the given
name and the unchanged direction. -/
theorem openPos_ok_shape (p : Position) (name date : String) (c pr : ℚ)
    (res : Position) (h : p.openPos name date c pr = .ok res) :
    res.name = name ∧ res.type = p.type := by
  unfold Position.openPos at h
  repeat' split at h
  all_goals first
    | exact Except.noConfusion h
    | (injection h with h2; subst h2; exact ⟨rfl, rfl⟩)

/-- Any successful `open_positions` returns two open legs holding distinct
instruments, one kxi and one xlp (short leg first, long leg second). -/
theorem open_positions_ok_shape (trade_log : List LogRow) (sp lp : Position)
    (kxi xlp : ℚ) (date : String) (cash : ℚ) (pt : String)
    (res : List LogRow × Position × Position)
    (h : open_positions trade_log sp lp kxi xlp date cash pt = .ok res) :
    res.2.2.is_open = true ∧ res.2.1.is_open = true ∧
    (res.2.2.name = "kxi" ∧ res.2.1.name = "xlp" ∨
     res.2.2.name = "xlp" ∧ res.2.1.name = "kxi") := by
  unfold open_positions at h
  by_cases hv : pt ≠ "short" ∧ pt ≠ "long"
  · rw [if_pos hv] at h
    exact Except.noConfusion h
  · rw [if_neg hv] at h
    by_cases hl : pt = "long"
    · rw [if_pos hl] at h
      cases hE1 : lp.openPos "kxi" date cash kxi with
      | error e => simp only [hE1] at h; exact Except.noConfusion h
      | ok lp2 =>
        simp only [hE1] at h
        cases hE2 : sp.openPos "xlp" date cash xlp with
        | error e => simp only [hE2] at h; exact Except.noConfusion h
        | ok sp2 =>
          simp only [hE2] at h
          have h4 := Except.ok.inj h
          subst h4
          have hs1 := openPos_ok_shape lp "kxi" date cash kxi lp2 hE1
          have hs2 := openPos_ok_shape sp "xlp" date cash xlp sp2 hE2
          exact ⟨by simp [Position.is_open, hs1.1], by simp [Position.is_open, hs2.1],
            Or.inl ⟨hs1.1, hs2.1⟩⟩
    · rw [if_neg hl] at h
      cases hE1 : lp.openPos "xlp" date cash xlp with
      | error e => simp only [hE1] at h; exact Except.noConfusion h
      | ok lp2 =>
        simp only [hE1] at h
        cases hE2 : sp.openPos "kxi" date cash kxi with
        | error e => simp only [hE2] at h; exact Except.noConfusion h
        | ok sp2 =>
          simp only [hE2] at h
          have h4 := Except.ok.inj h
          subst h4
          have hs1 := openPos_ok_shape lp "xlp" date cash xlp lp2 hE1
          have hs2 := openPos_ok_shape sp "kxi" date cash kxi sp2 hE2
          exact ⟨by simp [Position.is_open, hs1.1], by simp [Position.is_open, hs2.1],
            Or.inr ⟨hs1.1, hs2.1⟩⟩

/-- The signal evaluation preserves the pair invariant. -/
theorem pairInv_signalEval (df : List TRow) (g j zeta : ℚ) (M : ℕ)
    (st : SimState) (row : TRow) (tc : ℚ) (st' : SimState)
    (hinv : pairInv st.long_pos st.short_pos)
    (h : signalEval df g j zeta M st row tc = .ok st') :
    pairInv st'.long_pos st'.short_pos := by
  unfold signalEval close_positions_std at h
  repeat' split at h
  all_goals first
    | exact Except.noConfusion h
    | (injection h with h2; subst h2; exact hinv)
    | (injection h with h2; subst h2;
       rename_i r heq;
       have hs := open_positions_ok_shape _ _ _ _ _ _ _ _ _ heq;
       exact ⟨hs.1.trans hs.2.1.symm, fun _ => hs.2.2⟩)
    | (injection h with h2; subst h2;
       rename_i r heq;
       have hs := close_positions_ok_shape _ _ _ _ _ _ _ _ _ heq;
       refine ⟨?_, fun hopen => ?_⟩
       · simp [hs.1, hs.2, cleared_is_open]
       · simp [hs.2, cleared_is_open] at hopen)

/-- The daily evaluation (stop-loss check plus signal step) preserves the
pair invariant. -/
theorem pairInv_simEval (df : List TRow) (g j zeta : ℚ) (s : Option ℚ) (M : ℕ)
    (st : SimState) (row : TRow) (st' : SimState)
    (hinv : pairInv st.long_pos st.short_pos)
    (h : simEval df g j zeta s M st row = .ok st') :
    pairInv st'.long_pos st'.short_pos := by
  unfold simEval at h
  repeat' split at h
  all_goals first
    | exact Except.noConfusion h
    | (have h3 := pairInv_signalEval _ _ _ _ _ _ _ _ _ (by exact hinv) h; exact h3)
    | (injection h with h2; subst h2;
       rename_i r heq;
       have hs := close_positions_ok_shape _ _ _ _ _ _ _ _ _ heq;
       refine ⟨?_, fun hopen => ?_⟩
       · simp [hs.1, hs.2, cleared_is_open]
       · simp [hs.2, cleared_is_open] at hopen)

/-- The daily step preserves the pair invariant. -/
theorem pairInv_simDay (df : List TRow) (g j zeta : ℚ) (s : Option ℚ) (M : ℕ)
    (st : SimState) (row : TRow) (st' : SimState)
    (hinv : pairInv st.long_pos st.short_pos)
    (h : simDay df g j zeta s M st row = .ok st') :
    pairInv st'.long_pos st'.short_pos := by
  unfold simDay at h
  repeat' split at h
  all_goals first
    | exact Except.noConfusion h
    | (injection h with h2; subst h2; exact hinv)
    | (have h3 := pairInv_simEval _ _ _ _ _ _ _ _ _ (by exact hinv) h; exact h3)

/-- C10: the implicit pair invariant of `simulate`.  The initial state
satisfies it; every successful daily step preserves it; hence it holds at
every point between daily iterations (after any prefix of the fold); and
whenever the legs are open it forces them onto distinct instruments. -/
theorem simulate_pair_invariant (df : List TRow) (g j zeta : ℚ) (s : Option ℚ) (M : ℕ) :
    pairInv initState.long_pos initState.short_pos ∧
    (∀ (st : SimState) (row : TRow) (st' : SimState),
      pairInv st.long_pos st.short_pos →
      simDay df g j zeta s M st row = .ok st' →
      pairInv st'.long_pos st'.short_pos) ∧
    (∀ (rows : List TRow) (st st' : SimState),
      pairInv st.long_pos st.short_pos →
      List.foldlM (simDay df g j zeta s M) st rows = .ok st' →
      pairInv st'.long_pos st'.short_pos) ∧
    (∀ long_pos short_pos : Position, pairInv long_pos short_pos →
      long_pos.is_open = true → long_pos.name ≠ short_pos.name) := by
  refine ⟨⟨rfl, fun hopen => by exact absurd hopen (by decide)⟩, ?_, ?_, ?_⟩
  · intro st row st' hinv h
    exact pairInv_simDay df g j zeta s M st row st' hinv h
  · intro rows
    induction rows with
    | nil =>
      intro st st' hinv h
      have h4 : st = st' := Except.ok.inj h
      subst h4
      exact hinv
    | cons r rest ih =>
      intro st st' hinv h
      rw [List.foldlM_cons] at h
      cases hD : simDay df g j zeta s M st r with
      | error e => rw [hD] at h; exact Except.noConfusion h
      | ok st2 =>
        rw [hD] at h
        exact ih st2 st' (pairInv_simDay df g j zeta s M st r st2 hinv hD) h
  · intro long_pos short_pos hinv hopen
    rcases hinv.2 hopen with ⟨h1, h2⟩ | ⟨h1, h2⟩ <;> rw [h1, h2] <;> decide

/-- C10 witness: the step part applied at the concrete open-pair state
`stOpen` on a warm-up day: the invariant holds of the resulting state. -/
theorem simulate_pair_invariant_witness :
    pairInv ({ stOpen with lastDate := some "2020-06-01" } : SimState).long_pos
      ({ stOpen with lastDate := some "2020-06-01" } : SimState).short_pos :=
  (simulate_pair_invariant [] 1 0 0 none 1).2.1 stOpen ⟨"2020-06-01", 1, 1, 1⟩ _
    ⟨by decide, fun _ => Or.inr ⟨rfl, rfl⟩⟩
    (simDay_warmup [] 1 0 0 none 1 stOpen ⟨"2020-06-01", 1, 1, 1⟩ (by decide))

end Backtester
